import Mathlib

/-!
Verification development for the credit-billing backend
(`backend/functions/src/index.ts`).

Modelling conventions:
* JS numbers are modelled as exact rationals (`ℚ`).  `Math.round` on this
  idealisation is `⌊x + 1/2⌋` (nearest integer, ties toward `+∞`, which is
  the ECMAScript tie rule), `Math.ceil` is `⌈x⌉`, `Math.floor` is `⌊x⌋`.
  A JS number that may be `NaN` or `±Infinity` is modelled as `Option ℚ`
  with `none` standing for any non-finite value (the code collapses all of
  them through its `Number.isFinite` guards).
* `Math.exp` is modelled as an arbitrary function `E : ℚ → ℚ` threaded as a
  parameter; theorems quantify over it (so they hold in particular for the
  true exponential), and concrete runs instantiate it with a computable
  model.
* Environment-variable configuration (`numberFromEnv`) is modelled at its
  source-code fallback values (no environment overrides), after the
  `Math.max`/`Math.min` clamps applied in the source.
* Firestore documents are modelled by plain structures.  A missing user or
  session document reads exactly like an all-zero one in the source (every
  read goes through `Number(...) || 0` or `doc.exists ? _ : 0`), so the
  embedding collapses "absent" to the zero record.  Timestamp/audit-only
  fields (`updatedAt`, `lastAction`, `lastFailureReason`, analytics
  counters such as `creditsConsumed`, `actionCount`, `lastGifTokens`) are
  not tracked: no claim and no control path depends on them.
* A Firestore transaction that throws performs none of its writes; a
  throwing operation is therefore modelled as `Except.error` carrying no
  successor state.
-/

/-- Default credit gross price (`CREDIT_GROSS_PRICE_USD`, fallback 0.5). -/
def CREDIT_GROSS_PRICE_USD : ℚ := 1/2

/-- Default Play Store fee rate (`PLAY_STORE_FEE_RATE`, fallback 0.15). -/
def PLAY_STORE_FEE_RATE : ℚ := 15/100

/-- Default tax rate (`TAX_RATE`, fallback 0.3). -/
def TAX_RATE : ℚ := 3/10

/-- Default billing safety margin (`BILLING_SAFETY_MARGIN_RATE`, fallback 0.03). -/
def BILLING_SAFETY_MARGIN_RATE : ℚ := 3/100

/-- Default baseline credits for the smoothing curve (`BASELINE_CREDITS`, 0.85). -/
def BASELINE_CREDITS : ℚ := 85/100

/-- Default decay constant of the smoothing curve (`BASELINE_CREDITS_DECAY`, 0.35). -/
def BASELINE_CREDITS_DECAY : ℚ := 35/100

/-- Default minimum billed credits (`MIN_BILLED_CREDITS`, fallback 0.01). -/
def MIN_BILLED_CREDITS : ℚ := 1/100

/-- Default credit decimal precision (`CREDIT_DECIMALS`, fallback 3). -/
def CREDIT_DECIMALS : ℕ := 3

/-- `CREDIT_PRECISION_FACTOR = 10 ** CREDIT_DECIMALS`. -/
def CREDIT_PRECISION_FACTOR : ℚ := 1000

/-- `EPSILON = 1e-9`. -/
def EPSILON : ℚ := 1/1000000000

/-- `CREDIT_NET_PRICE_USD = gross · (1 − fee) · (1 − tax)`. -/
def CREDIT_NET_PRICE_USD : ℚ :=
  CREDIT_GROSS_PRICE_USD * (1 - PLAY_STORE_FEE_RATE) * (1 - TAX_RATE)

/-- JS `Math.round` on the rational idealisation: nearest integer with ties
rounded toward `+∞` (the ECMAScript rule). -/
def jsRound (x : ℚ) : ℤ := ⌊x + 1/2⌋

/-- `roundCredits` (source lines 167–170) on a finite value: scale by
`CREDIT_PRECISION_FACTOR`, `Math.round`, rescale. -/
def roundCredits (v : ℚ) : ℚ :=
  (jsRound (v * CREDIT_PRECISION_FACTOR) : ℚ) / CREDIT_PRECISION_FACTOR

/-- `roundCredits` including the `Number.isFinite` guard: a non-finite
input (`none`, modelling `NaN` or `±Infinity`) yields `0`. -/
def roundCreditsNum : Option ℚ → ℚ
  | none => 0
  | some v => roundCredits v

/-- `roundCreditsNonNegative` (source lines 172–174) on a finite value. -/
def roundCreditsNonNegative (v : ℚ) : ℚ := max 0 (roundCredits v)

/-- `roundCreditsNonNegative` including the non-finite guard. -/
def roundCreditsNonNegativeNum (v : Option ℚ) : ℚ := max 0 (roundCreditsNum v)

/-- `ceilCredits` (source lines 176–179): clamp at `0`, scale, `Math.ceil`,
rescale. -/
def ceilCredits (v : ℚ) : ℚ :=
  (⌈max 0 v * CREDIT_PRECISION_FACTOR⌉ : ℚ) / CREDIT_PRECISION_FACTOR

/-- `toDisplayCredits` (source lines 181–184): `max(1, ceil(max(0, v)))`. -/
def toDisplayCredits (v : ℚ) : ℚ := max 1 (⌈max 0 v⌉ : ℚ)

/-- A rational is representable at the ledger's 3-decimal precision. -/
def IsMilli (x : ℚ) : Prop := x * 1000 = (⌊x * 1000⌋ : ℚ)

instance (x : ℚ) : Decidable (IsMilli x) := by unfold IsMilli; infer_instance

theorem isMilli_iff {x : ℚ} : IsMilli x ↔ ∃ n : ℤ, x = (n : ℚ) / 1000 := by
  constructor
  · intro h
    exact ⟨⌊x * 1000⌋, by rw [← h]; ring⟩
  · rintro ⟨n, rfl⟩
    unfold IsMilli
    norm_num

theorem isMilli_add {x y : ℚ} (hx : IsMilli x) (hy : IsMilli y) :
    IsMilli (x + y) := by
  rcases isMilli_iff.mp hx with ⟨a, rfl⟩
  rcases isMilli_iff.mp hy with ⟨b, rfl⟩
  exact isMilli_iff.mpr ⟨a + b, by push_cast; ring⟩

theorem isMilli_sub {x y : ℚ} (hx : IsMilli x) (hy : IsMilli y) :
    IsMilli (x - y) := by
  rcases isMilli_iff.mp hx with ⟨a, rfl⟩
  rcases isMilli_iff.mp hy with ⟨b, rfl⟩
  exact isMilli_iff.mpr ⟨a - b, by push_cast; ring⟩

theorem isMilli_neg {x : ℚ} (hx : IsMilli x) : IsMilli (-x) := by
  rcases isMilli_iff.mp hx with ⟨a, rfl⟩
  exact isMilli_iff.mpr ⟨-a, by push_cast; ring⟩

theorem isMilli_max {x y : ℚ} (hx : IsMilli x) (hy : IsMilli y) :
    IsMilli (max x y) := by
  rcases le_total x y with h | h
  · rwa [max_eq_right h]
  · rwa [max_eq_left h]

theorem isMilli_zero : IsMilli 0 := by unfold IsMilli; norm_num

theorem isMilli_roundCredits (v : ℚ) : IsMilli (roundCredits v) :=
  isMilli_iff.mpr ⟨jsRound (v * CREDIT_PRECISION_FACTOR), rfl⟩

theorem isMilli_roundCreditsNum (v : Option ℚ) : IsMilli (roundCreditsNum v) := by
  cases v with
  | none => exact isMilli_zero
  | some x => exact isMilli_roundCredits x

theorem isMilli_roundCreditsNonNegative (v : ℚ) :
    IsMilli (roundCreditsNonNegative v) :=
  isMilli_max isMilli_zero (isMilli_roundCredits v)

theorem isMilli_roundCreditsNonNegativeNum (v : Option ℚ) :
    IsMilli (roundCreditsNonNegativeNum v) :=
  isMilli_max isMilli_zero (isMilli_roundCreditsNum v)

theorem isMilli_ceilCredits (v : ℚ) : IsMilli (ceilCredits v) :=
  isMilli_iff.mpr ⟨⌈max 0 v * CREDIT_PRECISION_FACTOR⌉, rfl⟩

theorem roundCredits_eq_self {x : ℚ} (hx : IsMilli x) : roundCredits x = x := by
  rcases isMilli_iff.mp hx with ⟨n, rfl⟩
  unfold roundCredits jsRound CREDIT_PRECISION_FACTOR
  have h1 : (n : ℚ) / 1000 * 1000 = (n : ℚ) := by ring
  rw [h1, Int.floor_int_add]
  norm_num

theorem ceilCredits_eq_self {x : ℚ} (hx : IsMilli x) (hx0 : 0 ≤ x) :
    ceilCredits x = x := by
  rcases isMilli_iff.mp hx with ⟨n, rfl⟩
  unfold ceilCredits CREDIT_PRECISION_FACTOR
  rw [max_eq_right hx0]
  have h1 : (n : ℚ) / 1000 * 1000 = (n : ℚ) := by ring
  rw [h1, Int.ceil_intCast]

theorem roundCredits_nonneg_of_nonneg {x : ℚ} (hx : 0 ≤ x) :
    0 ≤ roundCredits x := by
  unfold roundCredits jsRound CREDIT_PRECISION_FACTOR
  have h1 : (0 : ℚ) ≤ x * 1000 := by positivity
  have h2 : (0 : ℤ) ≤ ⌊x * 1000 + 1/2⌋ := by
    apply Int.floor_nonneg.mpr; linarith
  positivity

theorem roundCredits_mono {x y : ℚ} (h : x ≤ y) :
    roundCredits x ≤ roundCredits y := by
  unfold roundCredits jsRound CREDIT_PRECISION_FACTOR
  have h1 : ⌊x * 1000 + 1/2⌋ ≤ ⌊y * 1000 + 1/2⌋ := by
    apply Int.floor_le_floor; nlinarith
  have h2 : ((⌊x * 1000 + 1/2⌋ : ℤ) : ℚ) ≤ ((⌊y * 1000 + 1/2⌋ : ℤ) : ℚ) := by
    exact_mod_cast h1
  linarith

theorem roundCreditsNonNegative_nonneg (v : ℚ) :
    0 ≤ roundCreditsNonNegative v := le_max_left _ _

theorem roundCreditsNonNegativeNum_nonneg (v : Option ℚ) :
    0 ≤ roundCreditsNonNegativeNum v := le_max_left _ _

theorem ceilCredits_nonneg (v : ℚ) : 0 ≤ ceilCredits v := by
  unfold ceilCredits CREDIT_PRECISION_FACTOR
  have h1 : (0 : ℚ) ≤ max 0 v * 1000 := by positivity
  have h2 : (0 : ℤ) ≤ ⌈max 0 v * 1000⌉ := Int.ceil_nonneg h1
  positivity

theorem roundCreditsNonNegative_eq_self {x : ℚ} (hx : IsMilli x) (hx0 : 0 ≤ x) :
    roundCreditsNonNegative x = x := by
  unfold roundCreditsNonNegative
  rw [roundCredits_eq_self hx, max_eq_right hx0]

/-- `BillingAction` (source line 18). -/
inductive BillingAction
  | plan
  | generate
  | evaluate
  | refine
deriving DecidableEq

/-- `isChargeAction` (source lines 186–188): `plan` and `evaluate` are the
charge-initiating first-phase actions. -/
def isChargeAction : BillingAction → Bool
  | .plan => true
  | .evaluate => true
  | _ => false

/-- Gradings of `HttpsError` codes thrown by the billing helpers. -/
inductive HttpsCode
  | failedPrecondition
  | resourceExhausted
  | invalidArgument
deriving DecidableEq

/-- Errors thrown by the billing helpers, tagged by site. -/
inductive BillingErr
  /-- `computeGifBilling`: "Invalid credit pricing configuration". -/
  | invalidPricing
  /-- `stalePairStateError action`: stale pending-pair state. -/
  | stalePairState (action : BillingAction)
  /-- "Generation steps out of order": ordering guard in the reservation. -/
  | stepsOutOfOrder (action : BillingAction)
  /-- "Insufficient GIF credits". -/
  | insufficientCredits
  /-- `readRequiredPendingPairState` on a first-phase action. -/
  | pendingPairNotRequired
  /-- "Unsupported billing action for settlement" (unreachable in practice). -/
  | unsupportedSettlement
deriving DecidableEq

/-- The `HttpsError` code each billing error is raised with in the source. -/
def BillingErr.code : BillingErr → HttpsCode
  | .invalidPricing => .failedPrecondition
  | .stalePairState _ => .failedPrecondition
  | .stepsOutOfOrder _ => .failedPrecondition
  | .insufficientCredits => .resourceExhausted
  | .pendingPairNotRequired => .invalidArgument
  | .unsupportedSettlement => .failedPrecondition

/-- `applySmoothCreditCurve` (source lines 216–220); `E` models `Math.exp`. -/
def applySmoothCreditCurve (E : ℚ → ℚ) (rawCredits : ℚ) : ℚ :=
  rawCredits * (1 + BILLING_SAFETY_MARGIN_RATE) +
    BASELINE_CREDITS * E (-rawCredits / BASELINE_CREDITS_DECAY)

/-- Result record of `computeGifBilling` (source lines 210–214). -/
structure GifBillingComputation where
  rawCredits : ℚ
  billedCredits : ℚ
  displayCredits : ℚ
deriving DecidableEq

/-- `computeGifBilling` (source lines 222–236). -/
def computeGifBilling (E : ℚ → ℚ) (pairCostUsd : ℚ) :
    Except BillingErr GifBillingComputation :=
  if CREDIT_NET_PRICE_USD ≤ 0 then .error .invalidPricing
  else
    let rawCredits := pairCostUsd / CREDIT_NET_PRICE_USD
    let curveCredits := applySmoothCreditCurve E rawCredits
    let billedCredits := max MIN_BILLED_CREDITS (ceilCredits curveCredits)
    .ok { rawCredits := roundCredits rawCredits
          billedCredits := billedCredits
          displayCredits := toDisplayCredits billedCredits }

/-- `creditsForGifOutput` (source lines 238–240), in `Except` form. -/
def creditsForGifOutput (E : ℚ → ℚ) (pairCostUsd : ℚ) : Except BillingErr ℚ :=
  (computeGifBilling E pairCostUsd).map (fun b => b.billedCredits)

/-- The session document fields the billing logic reads and writes
(`generationSessions` collection).  Missing fields/documents read as `0`
in the source, so the all-zero record models a fresh session. -/
structure SessionState where
  pendingGenerate : ℤ
  pendingRefine : ℤ
  pendingPlanCostUsd : ℚ
  pendingPlanTokens : ℚ
  pendingPlanReservedCredits : ℚ
  pendingEvaluateCostUsd : ℚ
  pendingEvaluateTokens : ℚ
  pendingEvaluateReservedCredits : ℚ
deriving DecidableEq

/-- A fresh (or absent) session document. -/
def SessionState.init : SessionState :=
  { pendingGenerate := 0
    pendingRefine := 0
    pendingPlanCostUsd := 0
    pendingPlanTokens := 0
    pendingPlanReservedCredits := 0
    pendingEvaluateCostUsd := 0
    pendingEvaluateTokens := 0
    pendingEvaluateReservedCredits := 0 }

/-- The user balance document plus the session document for one
(user, session) pair — the full state a ledger transaction touches. -/
structure LedgerState where
  balance : ℚ
  session : SessionState
deriving DecidableEq

/-- `PendingPairFieldSet` (source lines 322–326): which trio of session
fields a pair uses, as a tag instead of three field-name strings. -/
inductive PairFieldSet
  | planPair
  | evaluatePair
deriving DecidableEq

/-- Read the `pending…CostUsd` field selected by a field set. -/
def SessionState.costOf (s : SessionState) : PairFieldSet → ℚ
  | .planPair => s.pendingPlanCostUsd
  | .evaluatePair => s.pendingEvaluateCostUsd

/-- Read the `pending…Tokens` field selected by a field set. -/
def SessionState.tokensOf (s : SessionState) : PairFieldSet → ℚ
  | .planPair => s.pendingPlanTokens
  | .evaluatePair => s.pendingEvaluateTokens

/-- Read the `pending…ReservedCredits` field selected by a field set. -/
def SessionState.reservedOf (s : SessionState) : PairFieldSet → ℚ
  | .planPair => s.pendingPlanReservedCredits
  | .evaluatePair => s.pendingEvaluateReservedCredits

/-- Write the `pending…CostUsd` field selected by a field set. -/
def SessionState.setCost (s : SessionState) : PairFieldSet → ℚ → SessionState
  | .planPair, v => { s with pendingPlanCostUsd := v }
  | .evaluatePair, v => { s with pendingEvaluateCostUsd := v }

/-- Write the `pending…Tokens` field selected by a field set. -/
def SessionState.setTokens (s : SessionState) : PairFieldSet → ℚ → SessionState
  | .planPair, v => { s with pendingPlanTokens := v }
  | .evaluatePair, v => { s with pendingEvaluateTokens := v }

/-- Write the `pending…ReservedCredits` field selected by a field set. -/
def SessionState.setReserved (s : SessionState) : PairFieldSet → ℚ → SessionState
  | .planPair, v => { s with pendingPlanReservedCredits := v }
  | .evaluatePair, v => { s with pendingEvaluateReservedCredits := v }

/-- `pendingPairFieldsForAction` (source lines 351–367): the pair fields a
second-phase action consumes; `none` for first-phase actions. -/
def pendingPairFieldsForAction : BillingAction → Option PairFieldSet
  | .generate => some .planPair
  | .refine => some .evaluatePair
  | _ => none

/-- `reservationFieldsForAction` (source lines 369–382). -/
def reservationFieldsForAction : BillingAction → PairFieldSet
  | .plan => .planPair
  | .generate => .planPair
  | .evaluate => .evaluatePair
  | .refine => .evaluatePair

/-- `PendingPairState` (source lines 328–332). -/
structure PendingPairState where
  pendingCostUsd : ℚ
  pendingTokens : ℚ
  pendingReservedCredits : ℚ
deriving DecidableEq

/-- `readRequiredPendingPairState` (source lines 400–424).  The source's
`Number.isFinite` guards are vacuous on the rational idealisation. -/
def readRequiredPendingPairState (action : BillingAction) (s : SessionState) :
    Except BillingErr PendingPairState :=
  match pendingPairFieldsForAction action with
  | none => .error .pendingPairNotRequired
  | some fields =>
    let pendingCostUsd := s.costOf fields
    let pendingTokens := s.tokensOf fields
    let pendingReservedCredits := roundCreditsNonNegative (s.reservedOf fields)
    if EPSILON < pendingCostUsd ∧ 0 < pendingTokens ∧ EPSILON < pendingReservedCredits then
      .ok { pendingCostUsd := pendingCostUsd
            pendingTokens := pendingTokens
            pendingReservedCredits := pendingReservedCredits }
    else .error (.stalePairState action)

/-- `ReservationResult` (source lines 295–298). -/
structure ReservationResult where
  provisionalChargedCredits : ℚ
  remainingBalance : ℚ
deriving DecidableEq

/-- `reserveCreditsForAction` (source lines 426–541): one atomic transaction
over the user and session documents.  The `provisionalChargeEstimate`
argument is a raw JS number (`none` = non-finite).  An error models the
transaction throwing, which performs none of its writes. -/
def reserveCreditsForAction (st : LedgerState) (action : BillingAction)
    (provisionalChargeEstimate : Option ℚ) :
    Except BillingErr (ReservationResult × LedgerState) :=
  let pendingGenerateDelta : ℤ :=
    if action = .plan then 1 else if action = .generate then -1 else 0
  let pendingRefineDelta : ℤ :=
    if action = .evaluate then 1 else if action = .refine then -1 else 0
  let requestedReserve := roundCreditsNonNegativeNum provisionalChargeEstimate
  let currentBalance := roundCredits st.balance
  let s := st.session
  let currentPendingGenerate := s.pendingGenerate
  let currentPendingRefine := s.pendingRefine
  let currentPlanReservedCredits := roundCreditsNonNegative s.pendingPlanReservedCredits
  let currentEvaluateReservedCredits := roundCreditsNonNegative s.pendingEvaluateReservedCredits
  let provisionalCharge :=
    if action = .generate then
      ceilCredits (max 0 (requestedReserve - currentPlanReservedCredits))
    else if action = .refine then
      ceilCredits (max 0 (requestedReserve - currentEvaluateReservedCredits))
    else requestedReserve
  let pairCheck : Except BillingErr Unit :=
    if action = .generate ∨ action = .refine then
      (readRequiredPendingPairState action s).map (fun _ => ())
    else .ok ()
  match pairCheck with
  | .error e => .error e
  | .ok _ =>
    if pendingGenerateDelta < 0 ∧ currentPendingGenerate < 1 then
      .error (.stepsOutOfOrder .generate)
    else if pendingRefineDelta < 0 ∧ currentPendingRefine < 1 then
      .error (.stepsOutOfOrder .refine)
    else if currentBalance + EPSILON < provisionalCharge then
      .error .insufficientCredits
    else
      let newBalance := roundCredits (currentBalance - provisionalCharge)
      let s1 := { s with
        pendingGenerate := currentPendingGenerate + pendingGenerateDelta
        pendingRefine := currentPendingRefine + pendingRefineDelta }
      let s2 :=
        if action = .plan then
          { s1 with pendingPlanReservedCredits := provisionalCharge
                    pendingPlanCostUsd := 0
                    pendingPlanTokens := 0 }
        else if action = .evaluate then
          { s1 with pendingEvaluateReservedCredits := provisionalCharge
                    pendingEvaluateCostUsd := 0
                    pendingEvaluateTokens := 0 }
        else if action = .generate then
          { s1 with pendingPlanReservedCredits :=
              roundCreditsNonNegative (currentPlanReservedCredits + provisionalCharge) }
        else
          { s1 with pendingEvaluateReservedCredits :=
              roundCreditsNonNegative (currentEvaluateReservedCredits + provisionalCharge) }
      .ok ({ provisionalChargedCredits := provisionalCharge
             remainingBalance := newBalance },
           { balance := newBalance, session := s2 })

/-- The two `UsageMetrics` fields the ledger reads (`totalTokens`,
`totalUsd`); the per-kind token counts feed analytics only. -/
structure UsageMetrics where
  totalTokens : ℚ
  totalUsd : ℚ
deriving DecidableEq

/-- `ZERO_USAGE_METRICS` (source lines 343–349). -/
def ZERO_USAGE_METRICS : UsageMetrics := { totalTokens := 0, totalUsd := 0 }

/-- `BillingSettlementOptions` with `rollbackOnly = true` (source lines
316–320); the failure-reason string is audit-only and not tracked. -/
structure RollbackOptions where
  provisionalChargedCredits : ℚ
deriving DecidableEq

/-- `BillingSettlementResult` (source lines 308–314). -/
structure BillingSettlementResult where
  remainingBalance : ℚ
  additionalChargedCredits : ℚ
  pairCreditsCharged : Option ℚ
  pairRawCredits : Option ℚ
  pairDisplayCredits : Option ℚ
deriving DecidableEq

/-- Outcome of `settleGifOrEvaluate` (source lines 543–614): the returned
figures plus the session document after its writes. -/
structure GifSettleOutcome where
  remainingBalance : ℚ
  additionalChargedCredits : ℚ
  pairCreditsCharged : ℚ
  pairRawCredits : ℚ
  pairDisplayCredits : ℚ
  session : SessionState
deriving DecidableEq

/-- `settleGifOrEvaluate` (source lines 543–614): second-phase settlement.
Charges `ceilCredits (max 0 (pairCredits − reserved))` with no balance
check, and zeroes the pair's pending fields. -/
def settleGifOrEvaluate (E : ℚ → ℚ) (action : BillingAction)
    (fields : PairFieldSet) (s : SessionState) (usage : UsageMetrics)
    (currentBalance : ℚ) : Except BillingErr GifSettleOutcome :=
  match readRequiredPendingPairState action s with
  | .error e => .error e
  | .ok pendingState =>
    let pairCostUsd := pendingState.pendingCostUsd + usage.totalUsd
    match computeGifBilling E pairCostUsd with
    | .error e => .error e
    | .ok pairBilling =>
      let pairCredits := pairBilling.billedCredits
      let additionalCredits :=
        ceilCredits (max 0 (pairCredits - pendingState.pendingReservedCredits))
      let newBalance := roundCredits (currentBalance - additionalCredits)
      let s1 := ((s.setCost fields 0).setTokens fields 0).setReserved fields 0
      .ok { remainingBalance := newBalance
            additionalChargedCredits := additionalCredits
            pairCreditsCharged := pairCredits
            pairRawCredits := pairBilling.rawCredits
            pairDisplayCredits := pairBilling.displayCredits
            session := s1 }

/-- `settleActionBilling` (source lines 616–755): one atomic transaction
handling rollback (options present), first-phase cost stashing, or
second-phase settlement.  On the rollback path the user document is only
written when the refund is positive, exactly as in the source. -/
def settleActionBilling (E : ℚ → ℚ) (st : LedgerState) (action : BillingAction)
    (usage : UsageMetrics) (options : Option RollbackOptions) :
    Except BillingErr (BillingSettlementResult × LedgerState) :=
  let currentBalance := roundCredits st.balance
  let s := st.session
  match options with
  | some opts =>
    let refundCredits := roundCreditsNonNegative opts.provisionalChargedCredits
    let pendingGenerateDelta : ℤ :=
      if action = .plan then -1 else if action = .generate then 1 else 0
    let pendingRefineDelta : ℤ :=
      if action = .evaluate then -1 else if action = .refine then 1 else 0
    let newBalance := roundCredits (currentBalance + refundCredits)
    let newUserBalance := if 0 < refundCredits then newBalance else st.balance
    let rollbackFields := reservationFieldsForAction action
    let currentReserved := roundCreditsNonNegative (s.reservedOf rollbackFields)
    let s1 := { s with
      pendingGenerate := max 0 (s.pendingGenerate + pendingGenerateDelta)
      pendingRefine := max 0 (s.pendingRefine + pendingRefineDelta) }
    let s2 := s1.setReserved rollbackFields
      (roundCreditsNonNegative (currentReserved - refundCredits))
    let s3 :=
      if action = .plan ∨ action = .evaluate then
        (s2.setCost rollbackFields 0).setTokens rollbackFields 0
      else s2
    .ok ({ remainingBalance := newBalance
           additionalChargedCredits := 0
           pairCreditsCharged := none
           pairRawCredits := none
           pairDisplayCredits := none },
         { balance := newUserBalance, session := s3 })
  | none =>
    match action with
    | .plan =>
      .ok ({ remainingBalance := currentBalance
             additionalChargedCredits := 0
             pairCreditsCharged := none
             pairRawCredits := none
             pairDisplayCredits := none },
           { balance := st.balance
             session := { s with pendingPlanCostUsd := usage.totalUsd
                                 pendingPlanTokens := usage.totalTokens } })
    | .evaluate =>
      .ok ({ remainingBalance := currentBalance
             additionalChargedCredits := 0
             pairCreditsCharged := none
             pairRawCredits := none
             pairDisplayCredits := none },
           { balance := st.balance
             session := { s with pendingEvaluateCostUsd := usage.totalUsd
                                 pendingEvaluateTokens := usage.totalTokens } })
    | _ =>
      match pendingPairFieldsForAction action with
      | none => .error .unsupportedSettlement
      | some fields =>
        match settleGifOrEvaluate E action fields s usage currentBalance with
        | .error e => .error e
        | .ok settled =>
          .ok ({ remainingBalance := settled.remainingBalance
                 additionalChargedCredits := settled.additionalChargedCredits
                 pairCreditsCharged := some settled.pairCreditsCharged
                 pairRawCredits := some settled.pairRawCredits
                 pairDisplayCredits := some settled.pairDisplayCredits },
               { balance := settled.remainingBalance
                 session := settled.session })

/-- One complete `plan`→`generate` pair as sequenced by the gateway
(`generateWithTokens`): reserve `plan`, settle `plan` (stash), reserve
`generate` (top-up), settle `generate`, starting from a fresh session. -/
def runPlanGeneratePair (E : ℚ → ℚ) (b0 : ℚ) (est1 : Option ℚ)
    (usage1 : UsageMetrics) (est2 : Option ℚ) (usage2 : UsageMetrics) :
    Except BillingErr
      (ReservationResult × ReservationResult × BillingSettlementResult × LedgerState) := do
  let (r1, st1) ← reserveCreditsForAction { balance := b0, session := .init } .plan est1
  let (_, st2) ← settleActionBilling E st1 .plan usage1 none
  let (r2, st3) ← reserveCreditsForAction st2 .generate est2
  let (res2, st4) ← settleActionBilling E st3 .generate usage2 none
  pure (r1, r2, res2, st4)

/-- One ledger operation succeeding on a state: a reservation, or a
settlement/rollback (`settleActionBilling` covers both via its options). -/
inductive LedgerStep (E : ℚ → ℚ) : LedgerState → LedgerState → Prop
  | reserve {st : LedgerState} (action : BillingAction) (est : Option ℚ)
      (r : ReservationResult) {st' : LedgerState} :
      reserveCreditsForAction st action est = .ok (r, st') → LedgerStep E st st'
  | settle {st : LedgerState} (action : BillingAction) (usage : UsageMetrics)
      (options : Option RollbackOptions) (res : BillingSettlementResult)
      {st' : LedgerState} :
      settleActionBilling E st action usage options = .ok (res, st') →
      LedgerStep E st st'

/-- States reachable from a fresh session with starting balance `b0` by any
sequence of successful reserve / settle / rollback operations. -/
def ReachableLedger (E : ℚ → ℚ) (b0 : ℚ) (st : LedgerState) : Prop :=
  Relation.ReflTransGen (LedgerStep E) { balance := b0, session := .init } st

/-- Ceiling at 3 decimals exactly as the spec phrases it ("ceil-to-3-
decimals"): scale, `Math.ceil`, rescale — without the `max 0` clamp the
source's `ceilCredits` applies first.  Spec-side definition for the
refinement comparison in C6. -/
def specCeilToPrecision (v : ℚ) : ℚ :=
  (⌈v * CREDIT_PRECISION_FACTOR⌉ : ℚ) / CREDIT_PRECISION_FACTOR

/-- Round to the nearest integer with ties to the even neighbour. -/
def roundHalfEvenInt (x : ℚ) : ℤ :=
  if x - ⌊x⌋ < 1/2 then ⌊x⌋
  else if 1/2 < x - ⌊x⌋ then ⌊x⌋ + 1
  else if Even ⌊x⌋ then ⌊x⌋ else ⌊x⌋ + 1

/-- The spec's claimed rounding for `roundCredits`: scale by `10^3`, round
ties to the even neighbour, rescale.  Spec-side definition for C8. -/
def specRoundHalfEvenCredits (v : ℚ) : ℚ :=
  (roundHalfEvenInt (v * CREDIT_PRECISION_FACTOR) : ℚ) / CREDIT_PRECISION_FACTOR

/-- Round to the nearest integer with ties toward `+∞`, written as an
explicit tie case split (scale-round-rescale shape). -/
def roundHalfUpInt (x : ℚ) : ℤ :=
  if x - ⌊x⌋ < 1/2 then ⌊x⌋ else ⌊x⌋ + 1

/-- Rounding at 3 decimals with ties toward `+∞`: scale, round half up,
rescale.  The amended rounding semantics for C8. -/
def specRoundHalfUpCredits (v : ℚ) : ℚ :=
  (roundHalfUpInt (v * CREDIT_PRECISION_FACTOR) : ℚ) / CREDIT_PRECISION_FACTOR

/-- A degenerate computable stand-in for `Math.exp` (constantly `1`), used
to evaluate concrete runs.  It satisfies the bounds of the exponential on
nonpositive arguments (`0 ≤ E x ≤ 1`), which is all any proof below uses
about `Math.exp`. -/
def expModelOne : ℚ → ℚ := fun _ => 1

/-- `GIF_PACKS` (source lines 28–33): credits granted per product id. -/
def GIF_PACKS : String → Option ℚ
  | "token_pack_tier1" => some 2
  | "token_pack_tier2" => some 10
  | "token_pack_tier3" => some 40
  | "token_pack_tier4" => some 200
  | _ => none

/-- Purchase-record status (`processing`/`completed`/`failed`). -/
inductive PurchaseStatus
  | processing
  | completed
  | failed
deriving DecidableEq

/-- The purchase document for one purchase-token hash (collection
`purchases`), with timestamps in ms for the staleness check. -/
structure PurchaseRecord where
  uid : ℕ
  productId : String
  status : PurchaseStatus
  creditsGranted : ℚ
  balanceAfter : Option ℚ
  consumePending : Bool
  createdAt : ℕ
  updatedAt : ℕ
deriving DecidableEq

/-- Global store state touched by `verifyAndCreditPurchase` for one fixed
purchase token: the (unique, hash-keyed) purchase document and the owning
user's balance. -/
structure PurchaseWorld where
  record : Option PurchaseRecord
  balance : ℚ
deriving DecidableEq

/-- Errors a `verifyAndCreditPurchase` invocation can halt with in the
modelled fragment. -/
inductive PurchaseErr
  | permissionDenied
  | abortedProcessing
deriving DecidableEq

/-- Control state of one in-flight `verifyAndCreditPurchase` invocation.
Each constructor marks the next atomic step against the backing store; the
credited balance is carried in the program counter after the credit
transaction.  `doneOk already balance` is the function's return value. -/
inductive PurchasePC
  | start
  | verifyStep
  | creditStep
  | completeStep (newBal : ℚ)
  | consumeStep (newBal : ℚ)
  | doneOk (alreadyCredited : Bool) (balance : ℚ)
  | doneErr (e : PurchaseErr)
deriving DecidableEq

/-- `5 * 60 * 1000` ms: the stale-`processing` takeover threshold. -/
def STALE_PROCESSING_MS : ℕ := 5 * 60 * 1000

/-- One atomic step of a `verifyAndCreditPurchase` invocation
(source lines 759–1013) against the store, at wall-clock `now`.
The store-side verifier is modelled at the claim's scenario: the purchase
verifies as completed (`purchaseState = 0`), belongs to the calling user,
is not yet consumed (`consumptionState ≠ 1`), and the consume call
succeeds.  Steps are exactly the store round trips of the source:
1. `start`: the `purchaseRef.create` lock, or — on "already exists" — the
   uid check, the completed/failed/stale-processing triage;
2. `verifyStep`: the Play Developer API verification (no store write);
3. `creditStep`: the balance-credit transaction;
4. `completeStep`: persisting `status = "completed"` with `balanceAfter`
   and `consumePending = true`;
5. `consumeStep`: the consume call plus clearing `consumePending`.
Halted invocations (`doneOk`/`doneErr`) do not move. -/
def purchaseStep (uid : ℕ) (productId : String) (grant : ℚ) (now : ℕ)
    (w : PurchaseWorld) (pc : PurchasePC) : PurchaseWorld × PurchasePC :=
  match pc with
  | .start =>
    match w.record with
    | none =>
      ({ w with record := some (
          { uid := uid, productId := productId, status := .processing
            creditsGranted := 0, balanceAfter := none, consumePending := false
            createdAt := now, updatedAt := now : PurchaseRecord }) },
       .verifyStep)
    | some r =>
      if r.uid ≠ uid then (w, .doneErr .permissionDenied)
      else match r.status with
      | .completed =>
        let safeBalance :=
          match r.balanceAfter with
          | some b => b
          | none => roundCredits w.balance
        let w1 :=
          if r.consumePending then
            { w with record := some { r with consumePending := false, updatedAt := now } }
          else w
        (w1, .doneOk true safeBalance)
      | .failed =>
        ({ w with record := some { r with status := .processing, updatedAt := now } },
         .verifyStep)
      | .processing =>
        if 0 < r.updatedAt ∧ STALE_PROCESSING_MS < now - r.updatedAt then
          ({ w with record := some { r with status := .processing, updatedAt := now } },
           .verifyStep)
        else (w, .doneErr .abortedProcessing)
  | .verifyStep => (w, .creditStep)
  | .creditStep =>
    let currentBalance := roundCredits w.balance
    let newBal := roundCredits (currentBalance + grant)
    ({ w with balance := newBal }, .completeStep newBal)
  | .completeStep newBal =>
    let newRecord :=
      match w.record with
      | some r =>
        { r with productId := productId, status := .completed
                 creditsGranted := grant, balanceAfter := some newBal
                 consumePending := true, updatedAt := now }
      | none =>
        { uid := uid, productId := productId, status := .completed
          creditsGranted := grant, balanceAfter := some newBal
          consumePending := true, createdAt := now, updatedAt := now }
    ({ w with record := some newRecord }, .consumeStep newBal)
  | .consumeStep newBal =>
    let w1 :=
      match w.record with
      | some r => { w with record := some { r with consumePending := false, updatedAt := now } }
      | none => w
    (w1, .doneOk false newBal)
  | .doneOk a b => (w, .doneOk a b)
  | .doneErr e => (w, .doneErr e)

/-- The store plus an unbounded pool of invocation threads (index `ℕ`);
threads not yet scheduled sit at `start`. -/
structure PurchaseSystem where
  world : PurchaseWorld
  threads : ℕ → PurchasePC

/-- Run one scheduled step: thread `idx` executes its next atomic block at
time `now`. -/
def purchaseRunStep (uid : ℕ) (productId : String) (grant : ℚ)
    (sys : PurchaseSystem) (idx now : ℕ) : PurchaseSystem :=
  let out := purchaseStep uid productId grant now sys.world (sys.threads idx)
  { world := out.1, threads := Function.update sys.threads idx out.2 }

/-- Run an interleaving: a list of (thread index, time) scheduling choices,
executed in order. -/
def purchaseRunSchedule (uid : ℕ) (productId : String) (grant : ℚ)
    (sys : PurchaseSystem) : List (ℕ × ℕ) → PurchaseSystem
  | [] => sys
  | (idx, now) :: rest =>
    purchaseRunSchedule uid productId grant
      (purchaseRunStep uid productId grant sys idx now) rest

/-- The initial system for one purchase token: no purchase document yet,
balance `b0`, every potential invocation at `start`. -/
def purchaseInit (b0 : ℚ) : PurchaseSystem :=
  { world := { record := none, balance := b0 }, threads := fun _ => .start }

theorem ceil_via_floor (x : ℚ) : (⌈x⌉ : ℤ) = -⌊-x⌋ := by
  rw [← neg_neg x, Int.ceil_neg, neg_neg]

theorem CREDIT_NET_PRICE_USD_pos : 0 < CREDIT_NET_PRICE_USD := by
  unfold CREDIT_NET_PRICE_USD CREDIT_GROSS_PRICE_USD PLAY_STORE_FEE_RATE TAX_RATE
  norm_num

theorem readPending_ok {action : BillingAction} {fields : PairFieldSet}
    {s : SessionState} {ps : PendingPairState}
    (hf : pendingPairFieldsForAction action = some fields)
    (h : readRequiredPendingPairState action s = .ok ps) :
    ps = { pendingCostUsd := s.costOf fields
           pendingTokens := s.tokensOf fields
           pendingReservedCredits := roundCreditsNonNegative (s.reservedOf fields) } ∧
    EPSILON < s.costOf fields ∧ 0 < s.tokensOf fields ∧
    EPSILON < roundCreditsNonNegative (s.reservedOf fields) := by
  unfold readRequiredPendingPairState at h
  rw [hf] at h
  dsimp only at h
  by_cases hc : EPSILON < s.costOf fields ∧ 0 < s.tokensOf fields ∧
      EPSILON < roundCreditsNonNegative (s.reservedOf fields)
  · rw [if_pos hc] at h
    simp only [Except.ok.injEq] at h
    exact ⟨h.symm, hc.1, hc.2.1, hc.2.2⟩
  · rw [if_neg hc] at h
    exact absurd h (by simp)

theorem readPending_intro {action : BillingAction} {fields : PairFieldSet}
    {s : SessionState}
    (hf : pendingPairFieldsForAction action = some fields)
    (hc : EPSILON < s.costOf fields) (ht : 0 < s.tokensOf fields)
    (hr : EPSILON < roundCreditsNonNegative (s.reservedOf fields)) :
    readRequiredPendingPairState action s =
      .ok { pendingCostUsd := s.costOf fields
            pendingTokens := s.tokensOf fields
            pendingReservedCredits := roundCreditsNonNegative (s.reservedOf fields) } := by
  unfold readRequiredPendingPairState
  rw [hf]
  dsimp only
  rw [if_pos ⟨hc, ht, hr⟩]

theorem reserve_plan_ok {st : LedgerState} {est : Option ℚ}
    {r : ReservationResult} {st' : LedgerState}
    (h : reserveCreditsForAction st .plan est = .ok (r, st')) :
    r.provisionalChargedCredits = roundCreditsNonNegativeNum est ∧
    r.remainingBalance =
      roundCredits (roundCredits st.balance - roundCreditsNonNegativeNum est) ∧
    st' = { balance := r.remainingBalance
            session := { st.session with
              pendingGenerate := st.session.pendingGenerate + 1
              pendingPlanReservedCredits := r.provisionalChargedCredits
              pendingPlanCostUsd := 0
              pendingPlanTokens := 0 } } ∧
    ¬ (roundCredits st.balance + EPSILON < roundCreditsNonNegativeNum est) := by
  unfold reserveCreditsForAction at h
  simp only [show (BillingAction.plan = .generate) = False by simp,
    show (BillingAction.plan = .refine) = False by simp,
    show (BillingAction.plan = .evaluate) = False by simp,
    show (BillingAction.plan = .plan) = True by simp] at h
  simp only [if_true, if_false, ite_true, ite_false, or_self] at h
  rw [if_neg (by simp), if_neg (by simp)] at h
  by_cases hb : roundCredits st.balance + EPSILON < roundCreditsNonNegativeNum est
  · rw [if_pos hb] at h
    exact absurd h (by simp)
  · rw [if_neg hb] at h
    simp only [Except.ok.injEq, Prod.mk.injEq] at h
    obtain ⟨hr, hst⟩ := h
    subst hr
    subst hst
    refine ⟨rfl, rfl, ?_, hb⟩
    simp only [LedgerState.mk.injEq, SessionState.mk.injEq, add_zero, and_true, true_and,
      and_self]

theorem reserve_evaluate_ok {st : LedgerState} {est : Option ℚ}
    {r : ReservationResult} {st' : LedgerState}
    (h : reserveCreditsForAction st .evaluate est = .ok (r, st')) :
    r.provisionalChargedCredits = roundCreditsNonNegativeNum est ∧
    r.remainingBalance =
      roundCredits (roundCredits st.balance - roundCreditsNonNegativeNum est) ∧
    st' = { balance := r.remainingBalance
            session := { st.session with
              pendingRefine := st.session.pendingRefine + 1
              pendingEvaluateReservedCredits := r.provisionalChargedCredits
              pendingEvaluateCostUsd := 0
              pendingEvaluateTokens := 0 } } ∧
    ¬ (roundCredits st.balance + EPSILON < roundCreditsNonNegativeNum est) := by
  unfold reserveCreditsForAction at h
  simp only [show (BillingAction.evaluate = .generate) = False by simp,
    show (BillingAction.evaluate = .refine) = False by simp,
    show (BillingAction.evaluate = .plan) = False by simp,
    show (BillingAction.evaluate = .evaluate) = True by simp] at h
  simp only [if_true, if_false, ite_true, ite_false, or_self] at h
  rw [if_neg (by simp), if_neg (by simp)] at h
  by_cases hb : roundCredits st.balance + EPSILON < roundCreditsNonNegativeNum est
  · rw [if_pos hb] at h
    exact absurd h (by simp)
  · rw [if_neg hb] at h
    simp only [Except.ok.injEq, Prod.mk.injEq] at h
    obtain ⟨hr, hst⟩ := h
    subst hr
    subst hst
    refine ⟨rfl, rfl, ?_, hb⟩
    simp only [LedgerState.mk.injEq, SessionState.mk.injEq, add_zero, and_true, true_and,
      and_self]

theorem reserve_generate_ok {st : LedgerState} {est : Option ℚ}
    {r : ReservationResult} {st' : LedgerState}
    (h : reserveCreditsForAction st .generate est = .ok (r, st')) :
    ∃ ps, readRequiredPendingPairState .generate st.session = .ok ps ∧
    r.provisionalChargedCredits =
      ceilCredits (max 0 (roundCreditsNonNegativeNum est -
        roundCreditsNonNegative st.session.pendingPlanReservedCredits)) ∧
    r.remainingBalance =
      roundCredits (roundCredits st.balance - r.provisionalChargedCredits) ∧
    1 ≤ st.session.pendingGenerate ∧
    ¬ (roundCredits st.balance + EPSILON < r.provisionalChargedCredits) ∧
    st' = { balance := r.remainingBalance
            session := { st.session with
              pendingGenerate := st.session.pendingGenerate - 1
              pendingPlanReservedCredits :=
                roundCreditsNonNegative
                  (roundCreditsNonNegative st.session.pendingPlanReservedCredits +
                    r.provisionalChargedCredits) } } := by
  unfold reserveCreditsForAction at h
  simp only [show (BillingAction.generate = .generate) = True by simp,
    show (BillingAction.generate = .refine) = False by simp,
    show (BillingAction.generate = .plan) = False by simp,
    show (BillingAction.generate = .evaluate) = False by simp] at h
  simp only [if_true, if_false, ite_true, ite_false, true_or, or_false] at h
  cases hps : readRequiredPendingPairState .generate st.session with
  | error e =>
    rw [hps] at h
    exact absurd h (by simp [Except.map])
  | ok ps =>
    rw [hps] at h
    simp only [Except.map] at h
    by_cases hpg : st.session.pendingGenerate < 1
    · rw [if_pos ⟨by norm_num, hpg⟩] at h
      exact absurd h (by simp)
    · rw [if_neg (fun hc => hpg hc.2), if_neg (by simp)] at h
      by_cases hb : roundCredits st.balance + EPSILON <
          ceilCredits (max 0 (roundCreditsNonNegativeNum est -
            roundCreditsNonNegative st.session.pendingPlanReservedCredits))
      · rw [if_pos hb] at h
        exact absurd h (by simp)
      · rw [if_neg hb] at h
        simp only [Except.ok.injEq, Prod.mk.injEq] at h
        obtain ⟨hr, hst⟩ := h
        subst hr
        subst hst
        refine ⟨ps, rfl, rfl, rfl, by omega, hb, ?_⟩
        simp only [LedgerState.mk.injEq, SessionState.mk.injEq, add_zero, and_true, true_and,
          and_self, Int.sub_eq_add_neg, and_self_iff]

theorem reserve_refine_ok {st : LedgerState} {est : Option ℚ}
    {r : ReservationResult} {st' : LedgerState}
    (h : reserveCreditsForAction st .refine est = .ok (r, st')) :
    ∃ ps, readRequiredPendingPairState .refine st.session = .ok ps ∧
    r.provisionalChargedCredits =
      ceilCredits (max 0 (roundCreditsNonNegativeNum est -
        roundCreditsNonNegative st.session.pendingEvaluateReservedCredits)) ∧
    r.remainingBalance =
      roundCredits (roundCredits st.balance - r.provisionalChargedCredits) ∧
    1 ≤ st.session.pendingRefine ∧
    ¬ (roundCredits st.balance + EPSILON < r.provisionalChargedCredits) ∧
    st' = { balance := r.remainingBalance
            session := { st.session with
              pendingRefine := st.session.pendingRefine - 1
              pendingEvaluateReservedCredits :=
                roundCreditsNonNegative
                  (roundCreditsNonNegative st.session.pendingEvaluateReservedCredits +
                    r.provisionalChargedCredits) } } := by
  unfold reserveCreditsForAction at h
  simp only [show (BillingAction.refine = .generate) = False by simp,
    show (BillingAction.refine = .refine) = True by simp,
    show (BillingAction.refine = .plan) = False by simp,
    show (BillingAction.refine = .evaluate) = False by simp] at h
  simp only [if_true, if_false, ite_true, ite_false, or_true, false_or] at h
  cases hps : readRequiredPendingPairState .refine st.session with
  | error e =>
    rw [hps] at h
    exact absurd h (by simp [Except.map])
  | ok ps =>
    rw [hps] at h
    simp only [Except.map] at h
    rw [if_neg (by simp)] at h
    by_cases hpr : st.session.pendingRefine < 1
    · rw [if_pos ⟨by norm_num, hpr⟩] at h
      exact absurd h (by simp)
    · rw [if_neg (fun hc => hpr hc.2)] at h
      by_cases hb : roundCredits st.balance + EPSILON <
          ceilCredits (max 0 (roundCreditsNonNegativeNum est -
            roundCreditsNonNegative st.session.pendingEvaluateReservedCredits))
      · rw [if_pos hb] at h
        exact absurd h (by simp)
      · rw [if_neg hb] at h
        simp only [Except.ok.injEq, Prod.mk.injEq] at h
        obtain ⟨hr, hst⟩ := h
        subst hr
        subst hst
        refine ⟨ps, rfl, rfl, rfl, by omega, hb, ?_⟩
        simp only [LedgerState.mk.injEq, SessionState.mk.injEq, add_zero, and_true, true_and,
          and_self, Int.sub_eq_add_neg, and_self_iff]

theorem computeGifBilling_eq (E : ℚ → ℚ) (c : ℚ) :
    computeGifBilling E c = .ok
      { rawCredits := roundCredits (c / CREDIT_NET_PRICE_USD)
        billedCredits := max MIN_BILLED_CREDITS
          (ceilCredits (applySmoothCreditCurve E (c / CREDIT_NET_PRICE_USD)))
        displayCredits := toDisplayCredits (max MIN_BILLED_CREDITS
          (ceilCredits (applySmoothCreditCurve E (c / CREDIT_NET_PRICE_USD)))) } := by
  unfold computeGifBilling
  rw [if_neg (not_le.mpr CREDIT_NET_PRICE_USD_pos)]

theorem settle_rollback_plan_ok {E : ℚ → ℚ} {st : LedgerState} {usage : UsageMetrics}
    {opts : RollbackOptions} {res : BillingSettlementResult} {st' : LedgerState}
    (h : settleActionBilling E st .plan usage (some opts) = .ok (res, st')) :
    res = { remainingBalance :=
              roundCredits (roundCredits st.balance +
                roundCreditsNonNegative opts.provisionalChargedCredits)
            additionalChargedCredits := 0
            pairCreditsCharged := none
            pairRawCredits := none
            pairDisplayCredits := none } ∧
    st' = { balance :=
              if 0 < roundCreditsNonNegative opts.provisionalChargedCredits then
                roundCredits (roundCredits st.balance +
                  roundCreditsNonNegative opts.provisionalChargedCredits)
              else st.balance
            session := { st.session with
              pendingGenerate := max 0 (st.session.pendingGenerate - 1)
              pendingRefine := max 0 st.session.pendingRefine
              pendingPlanReservedCredits := roundCreditsNonNegative
                (roundCreditsNonNegative st.session.pendingPlanReservedCredits -
                  roundCreditsNonNegative opts.provisionalChargedCredits)
              pendingPlanCostUsd := 0
              pendingPlanTokens := 0 } } := by
  unfold settleActionBilling at h
  simp only [show (BillingAction.plan = .generate) = False by simp,
    show (BillingAction.plan = .refine) = False by simp,
    show (BillingAction.plan = .evaluate) = False by simp,
    show (BillingAction.plan = .plan) = True by simp] at h
  simp only [if_true, if_false, ite_true, ite_false, true_or, reservationFieldsForAction,
    SessionState.setReserved, SessionState.setCost, SessionState.setTokens,
    SessionState.reservedOf] at h
  simp only [Except.ok.injEq, Prod.mk.injEq] at h
  obtain ⟨hr, hst⟩ := h
  subst hr
  subst hst
  refine ⟨rfl, ?_⟩
  simp only [LedgerState.mk.injEq, SessionState.mk.injEq, add_zero, Int.sub_eq_add_neg,
    and_true, true_and, and_self]

theorem settle_rollback_evaluate_ok {E : ℚ → ℚ} {st : LedgerState} {usage : UsageMetrics}
    {opts : RollbackOptions} {res : BillingSettlementResult} {st' : LedgerState}
    (h : settleActionBilling E st .evaluate usage (some opts) = .ok (res, st')) :
    res = { remainingBalance :=
              roundCredits (roundCredits st.balance +
                roundCreditsNonNegative opts.provisionalChargedCredits)
            additionalChargedCredits := 0
            pairCreditsCharged := none
            pairRawCredits := none
            pairDisplayCredits := none } ∧
    st' = { balance :=
              if 0 < roundCreditsNonNegative opts.provisionalChargedCredits then
                roundCredits (roundCredits st.balance +
                  roundCreditsNonNegative opts.provisionalChargedCredits)
              else st.balance
            session := { st.session with
              pendingGenerate := max 0 st.session.pendingGenerate
              pendingRefine := max 0 (st.session.pendingRefine - 1)
              pendingEvaluateReservedCredits := roundCreditsNonNegative
                (roundCreditsNonNegative st.session.pendingEvaluateReservedCredits -
                  roundCreditsNonNegative opts.provisionalChargedCredits)
              pendingEvaluateCostUsd := 0
              pendingEvaluateTokens := 0 } } := by
  unfold settleActionBilling at h
  simp only [show (BillingAction.evaluate = .generate) = False by simp,
    show (BillingAction.evaluate = .refine) = False by simp,
    show (BillingAction.evaluate = .plan) = False by simp,
    show (BillingAction.evaluate = .evaluate) = True by simp] at h
  simp only [if_true, if_false, ite_true, ite_false, or_true, reservationFieldsForAction,
    SessionState.setReserved, SessionState.setCost, SessionState.setTokens,
    SessionState.reservedOf] at h
  simp only [Except.ok.injEq, Prod.mk.injEq] at h
  obtain ⟨hr, hst⟩ := h
  subst hr
  subst hst
  refine ⟨rfl, ?_⟩
  simp only [LedgerState.mk.injEq, SessionState.mk.injEq, add_zero, Int.sub_eq_add_neg,
    and_true, true_and, and_self]

theorem settle_rollback_generate_ok {E : ℚ → ℚ} {st : LedgerState} {usage : UsageMetrics}
    {opts : RollbackOptions} {res : BillingSettlementResult} {st' : LedgerState}
    (h : settleActionBilling E st .generate usage (some opts) = .ok (res, st')) :
    res = { remainingBalance :=
              roundCredits (roundCredits st.balance +
                roundCreditsNonNegative opts.provisionalChargedCredits)
            additionalChargedCredits := 0
            pairCreditsCharged := none
            pairRawCredits := none
            pairDisplayCredits := none } ∧
    st' = { balance :=
              if 0 < roundCreditsNonNegative opts.provisionalChargedCredits then
                roundCredits (roundCredits st.balance +
                  roundCreditsNonNegative opts.provisionalChargedCredits)
              else st.balance
            session := { st.session with
              pendingGenerate := max 0 (st.session.pendingGenerate + 1)
              pendingRefine := max 0 st.session.pendingRefine
              pendingPlanReservedCredits := roundCreditsNonNegative
                (roundCreditsNonNegative st.session.pendingPlanReservedCredits -
                  roundCreditsNonNegative opts.provisionalChargedCredits) } } := by
  unfold settleActionBilling at h
  simp only [show (BillingAction.generate = .generate) = True by simp,
    show (BillingAction.generate = .refine) = False by simp,
    show (BillingAction.generate = .plan) = False by simp,
    show (BillingAction.generate = .evaluate) = False by simp] at h
  simp only [if_true, if_false, ite_true, ite_false, or_self, reservationFieldsForAction,
    SessionState.setReserved, SessionState.setCost, SessionState.setTokens,
    SessionState.reservedOf] at h
  simp only [Except.ok.injEq, Prod.mk.injEq] at h
  obtain ⟨hr, hst⟩ := h
  subst hr
  subst hst
  refine ⟨rfl, ?_⟩
  simp only [LedgerState.mk.injEq, SessionState.mk.injEq, add_zero, and_true, true_and,
    and_self]

theorem settle_rollback_refine_ok {E : ℚ → ℚ} {st : LedgerState} {usage : UsageMetrics}
    {opts : RollbackOptions} {res : BillingSettlementResult} {st' : LedgerState}
    (h : settleActionBilling E st .refine usage (some opts) = .ok (res, st')) :
    res = { remainingBalance :=
              roundCredits (roundCredits st.balance +
                roundCreditsNonNegative opts.provisionalChargedCredits)
            additionalChargedCredits := 0
            pairCreditsCharged := none
            pairRawCredits := none
            pairDisplayCredits := none } ∧
    st' = { balance :=
              if 0 < roundCreditsNonNegative opts.provisionalChargedCredits then
                roundCredits (roundCredits st.balance +
                  roundCreditsNonNegative opts.provisionalChargedCredits)
              else st.balance
            session := { st.session with
              pendingGenerate := max 0 st.session.pendingGenerate
              pendingRefine := max 0 (st.session.pendingRefine + 1)
              pendingEvaluateReservedCredits := roundCreditsNonNegative
                (roundCreditsNonNegative st.session.pendingEvaluateReservedCredits -
                  roundCreditsNonNegative opts.provisionalChargedCredits) } } := by
  unfold settleActionBilling at h
  simp only [show (BillingAction.refine = .generate) = False by simp,
    show (BillingAction.refine = .refine) = True by simp,
    show (BillingAction.refine = .plan) = False by simp,
    show (BillingAction.refine = .evaluate) = False by simp] at h
  simp only [if_true, if_false, ite_true, ite_false, or_self, reservationFieldsForAction,
    SessionState.setReserved, SessionState.setCost, SessionState.setTokens,
    SessionState.reservedOf] at h
  simp only [Except.ok.injEq, Prod.mk.injEq] at h
  obtain ⟨hr, hst⟩ := h
  subst hr
  subst hst
  refine ⟨rfl, ?_⟩
  simp only [LedgerState.mk.injEq, SessionState.mk.injEq, add_zero, and_true, true_and,
    and_self]

theorem settle_plan_stash_ok {E : ℚ → ℚ} {st : LedgerState} {usage : UsageMetrics}
    {res : BillingSettlementResult} {st' : LedgerState}
    (h : settleActionBilling E st .plan usage none = .ok (res, st')) :
    res = { remainingBalance := roundCredits st.balance
            additionalChargedCredits := 0
            pairCreditsCharged := none
            pairRawCredits := none
            pairDisplayCredits := none } ∧
    st' = { balance := st.balance
            session := { st.session with
              pendingPlanCostUsd := usage.totalUsd
              pendingPlanTokens := usage.totalTokens } } := by
  unfold settleActionBilling at h
  simp only [Except.ok.injEq, Prod.mk.injEq] at h
  obtain ⟨hr, hst⟩ := h
  subst hr
  subst hst
  exact ⟨rfl, rfl⟩

theorem settle_evaluate_stash_ok {E : ℚ → ℚ} {st : LedgerState} {usage : UsageMetrics}
    {res : BillingSettlementResult} {st' : LedgerState}
    (h : settleActionBilling E st .evaluate usage none = .ok (res, st')) :
    res = { remainingBalance := roundCredits st.balance
            additionalChargedCredits := 0
            pairCreditsCharged := none
            pairRawCredits := none
            pairDisplayCredits := none } ∧
    st' = { balance := st.balance
            session := { st.session with
              pendingEvaluateCostUsd := usage.totalUsd
              pendingEvaluateTokens := usage.totalTokens } } := by
  unfold settleActionBilling at h
  simp only [Except.ok.injEq, Prod.mk.injEq] at h
  obtain ⟨hr, hst⟩ := h
  subst hr
  subst hst
  exact ⟨rfl, rfl⟩

theorem settle_generate_settles_ok {E : ℚ → ℚ} {st : LedgerState} {usage : UsageMetrics}
    {res : BillingSettlementResult} {st' : LedgerState}
    (h : settleActionBilling E st .generate usage none = .ok (res, st')) :
    ∃ ps b, readRequiredPendingPairState .generate st.session = .ok ps ∧
      computeGifBilling E (ps.pendingCostUsd + usage.totalUsd) = .ok b ∧
      res = { remainingBalance := roundCredits (roundCredits st.balance -
                ceilCredits (max 0 (b.billedCredits - ps.pendingReservedCredits)))
              additionalChargedCredits :=
                ceilCredits (max 0 (b.billedCredits - ps.pendingReservedCredits))
              pairCreditsCharged := some b.billedCredits
              pairRawCredits := some b.rawCredits
              pairDisplayCredits := some b.displayCredits } ∧
      st' = { balance := res.remainingBalance
              session := { st.session with
                pendingPlanCostUsd := 0
                pendingPlanTokens := 0
                pendingPlanReservedCredits := 0 } } := by
  unfold settleActionBilling at h
  simp only [pendingPairFieldsForAction] at h
  unfold settleGifOrEvaluate at h
  cases hps : readRequiredPendingPairState .generate st.session with
  | error e =>
    rw [hps] at h
    exact absurd h (by simp)
  | ok ps =>
    rw [hps] at h
    dsimp only at h
    rw [computeGifBilling_eq] at h
    dsimp only at h
    simp only [SessionState.setCost, SessionState.setTokens, SessionState.setReserved] at h
    simp only [Except.ok.injEq, Prod.mk.injEq] at h
    obtain ⟨hr, hst⟩ := h
    subst hr
    subst hst
    exact ⟨ps, _, rfl, computeGifBilling_eq E (ps.pendingCostUsd + usage.totalUsd), rfl, rfl⟩

theorem settle_refine_settles_ok {E : ℚ → ℚ} {st : LedgerState} {usage : UsageMetrics}
    {res : BillingSettlementResult} {st' : LedgerState}
    (h : settleActionBilling E st .refine usage none = .ok (res, st')) :
    ∃ ps b, readRequiredPendingPairState .refine st.session = .ok ps ∧
      computeGifBilling E (ps.pendingCostUsd + usage.totalUsd) = .ok b ∧
      res = { remainingBalance := roundCredits (roundCredits st.balance -
                ceilCredits (max 0 (b.billedCredits - ps.pendingReservedCredits)))
              additionalChargedCredits :=
                ceilCredits (max 0 (b.billedCredits - ps.pendingReservedCredits))
              pairCreditsCharged := some b.billedCredits
              pairRawCredits := some b.rawCredits
              pairDisplayCredits := some b.displayCredits } ∧
      st' = { balance := res.remainingBalance
              session := { st.session with
                pendingEvaluateCostUsd := 0
                pendingEvaluateTokens := 0
                pendingEvaluateReservedCredits := 0 } } := by
  unfold settleActionBilling at h
  simp only [pendingPairFieldsForAction] at h
  unfold settleGifOrEvaluate at h
  cases hps : readRequiredPendingPairState .refine st.session with
  | error e =>
    rw [hps] at h
    exact absurd h (by simp)
  | ok ps =>
    rw [hps] at h
    dsimp only at h
    rw [computeGifBilling_eq] at h
    dsimp only at h
    simp only [SessionState.setCost, SessionState.setTokens, SessionState.setReserved] at h
    simp only [Except.ok.injEq, Prod.mk.injEq] at h
    obtain ⟨hr, hst⟩ := h
    subst hr
    subst hst
    exact ⟨ps, _, rfl, computeGifBilling_eq E (ps.pendingCostUsd + usage.totalUsd), rfl, rfl⟩

theorem max_min_ceil_eq_spec (v : ℚ) :
    max MIN_BILLED_CREDITS (ceilCredits v) =
      max MIN_BILLED_CREDITS (specCeilToPrecision v) := by
  rcases le_or_lt 0 v with hv | hv
  · unfold ceilCredits specCeilToPrecision
    rw [max_eq_right hv]
  · have hceil : ceilCredits v = 0 := by
      unfold ceilCredits
      rw [max_eq_left (le_of_lt hv)]
      norm_num
    have hspec : specCeilToPrecision v ≤ 0 := by
      unfold specCeilToPrecision CREDIT_PRECISION_FACTOR
      have h1 : ⌈v * 1000⌉ ≤ 0 := Int.ceil_le.mpr (by push_cast; nlinarith)
      have h2 : ((⌈v * 1000⌉ : ℤ) : ℚ) ≤ 0 := by exact_mod_cast h1
      linarith
    rw [hceil, max_eq_left, max_eq_left]
    · exact le_trans hspec (by unfold MIN_BILLED_CREDITS; norm_num)
    · unfold MIN_BILLED_CREDITS; norm_num

/-- C6: for every pair cost, `computeGifBilling` succeeds (the net credit
price is positive) and bills
`max(minBilledCredits, ceil₃(raw·(1+margin) + baseline·exp(−raw/decay)))`
with `raw = costUsd / netCreditPriceUsd`, where `ceil₃` is the plain
ceil-to-3-decimals of the spec; the display value is
`max(1, ceil(billedCredits))`; consequently billed credits are at least the
configured minimum and display credits are at least `1`. -/
theorem computeGifBilling_matches_pricing_curve (E : ℚ → ℚ) (pairCostUsd : ℚ) :
    ∃ b, computeGifBilling E pairCostUsd = .ok b ∧
      b.billedCredits = max MIN_BILLED_CREDITS
        (specCeilToPrecision
          (pairCostUsd / CREDIT_NET_PRICE_USD * (1 + BILLING_SAFETY_MARGIN_RATE) +
            BASELINE_CREDITS *
              E (-(pairCostUsd / CREDIT_NET_PRICE_USD) / BASELINE_CREDITS_DECAY))) ∧
      b.displayCredits = max 1 (⌈b.billedCredits⌉ : ℚ) ∧
      MIN_BILLED_CREDITS ≤ b.billedCredits ∧
      1 ≤ b.displayCredits := by
  rw [computeGifBilling_eq]
  refine ⟨_, rfl, ?_, ?_, ?_, ?_⟩
  · unfold applySmoothCreditCurve
    exact max_min_ceil_eq_spec _
  · have hpos : (0 : ℚ) ≤ max MIN_BILLED_CREDITS
        (ceilCredits (applySmoothCreditCurve E (pairCostUsd / CREDIT_NET_PRICE_USD))) :=
      le_trans (by unfold MIN_BILLED_CREDITS; norm_num) (le_max_left _ _)
    unfold toDisplayCredits
    rw [max_eq_right hpos]
  · exact le_max_left _ _
  · exact le_max_left _ _

theorem floor_add_half (x : ℚ) :
    ⌊x + 1/2⌋ = if x - ⌊x⌋ < 1/2 then ⌊x⌋ else ⌊x⌋ + 1 := by
  have h0 : (0 : ℚ) ≤ x - ⌊x⌋ := by
    have := Int.floor_le x
    linarith
  have h1 : x - ⌊x⌋ < 1 := by
    have := Int.lt_floor_add_one x
    linarith
  by_cases hc : x - ⌊x⌋ < 1/2
  · rw [if_pos hc]
    apply Int.floor_eq_iff.mpr
    exact ⟨by linarith, by linarith⟩
  · rw [if_neg hc]
    push_neg at hc
    apply Int.floor_eq_iff.mpr
    constructor
    · push_cast
      linarith
    · push_cast
      linarith

/-- C8 amended: `roundCredits` rounds at 3 decimals with round-half-toward-
`+∞` semantics (scale by `10^3`, round ties toward `+∞`, rescale) — not
round-half-even. -/
theorem roundCredits_rounds_half_up (v : ℚ) :
    roundCredits v = specRoundHalfUpCredits v := by
  unfold roundCredits specRoundHalfUpCredits jsRound roundHalfUpInt
  rw [floor_add_half]

/-- C8 counterexample: at `v = 0.0025` the scaled value `2.5` is an exact
tie; the code (JS `Math.round`) produces `0.003`, while half-even rounding
would produce `0.002`. -/
theorem roundCredits_halfEven_counterexample :
    roundCredits (1/400) = 3/1000 ∧
    specRoundHalfEvenCredits (1/400) = 2/1000 ∧
    roundCredits (1/400) ≠ specRoundHalfEvenCredits (1/400) := by
  have h1 : roundCredits (1/400) = 3/1000 := by
    unfold roundCredits jsRound CREDIT_PRECISION_FACTOR
    norm_num
  have h2 : specRoundHalfEvenCredits (1/400) = 2/1000 := by
    unfold specRoundHalfEvenCredits roundHalfEvenInt CREDIT_PRECISION_FACTOR
    norm_num
  refine ⟨h1, h2, ?_⟩
  rw [h1, h2]
  norm_num

theorem round_sub_le (b c : ℚ) (hc : 0 ≤ c) :
    roundCredits (roundCredits b - c) ≤ roundCredits b := by
  calc roundCredits (roundCredits b - c) ≤ roundCredits (roundCredits b) :=
        roundCredits_mono (by linarith)
    _ = roundCredits b := roundCredits_eq_self (isMilli_roundCredits b)

/-- C9: a successful reservation charges a non-negative amount — for any
`provisionalChargeEstimate`, negative, `NaN` or infinite included — and the
returned remaining balance never exceeds the balance the transaction read
(hence never exceeds the stored pre-transaction balance, which is always at
ledger precision). -/
theorem reserve_charge_nonneg_no_credit (st : LedgerState) (action : BillingAction)
    (est : Option ℚ) (r : ReservationResult) (st' : LedgerState)
    (h : reserveCreditsForAction st action est = .ok (r, st')) :
    0 ≤ r.provisionalChargedCredits ∧
    r.remainingBalance ≤ roundCredits st.balance ∧
    (IsMilli st.balance → r.remainingBalance ≤ st.balance) := by
  have key : 0 ≤ r.provisionalChargedCredits ∧
      r.remainingBalance =
        roundCredits (roundCredits st.balance - r.provisionalChargedCredits) := by
    cases action with
    | plan =>
      obtain ⟨hc, hr, _, _⟩ := reserve_plan_ok h
      constructor
      · rw [hc]
        exact roundCreditsNonNegativeNum_nonneg est
      · rw [hc]
        exact hr
    | evaluate =>
      obtain ⟨hc, hr, _, _⟩ := reserve_evaluate_ok h
      constructor
      · rw [hc]
        exact roundCreditsNonNegativeNum_nonneg est
      · rw [hc]
        exact hr
    | generate =>
      obtain ⟨ps, _, hc, hr, _, _, _⟩ := reserve_generate_ok h
      constructor
      · rw [hc]
        exact ceilCredits_nonneg _
      · exact hr
    | refine =>
      obtain ⟨ps, _, hc, hr, _, _, _⟩ := reserve_refine_ok h
      constructor
      · rw [hc]
        exact ceilCredits_nonneg _
      · exact hr
  obtain ⟨hpos, hrem⟩ := key
  refine ⟨hpos, ?_, ?_⟩
  · rw [hrem]
    exact round_sub_le _ _ hpos
  · intro hm
    rw [hrem]
    calc roundCredits (roundCredits st.balance - r.provisionalChargedCredits)
        ≤ roundCredits st.balance := round_sub_le _ _ hpos
      _ = st.balance := roundCredits_eq_self hm

/-- C9 witness: a reservation of a `NaN`/infinite estimate on balance `10`
charges `0` and returns balance `10`. -/
theorem reserve_charge_nonneg_no_credit_witness :
    (0 : ℚ) ≤ 0 ∧ (10 : ℚ) ≤ roundCredits 10 ∧ (IsMilli (10 : ℚ) → (10 : ℚ) ≤ 10) :=
  reserve_charge_nonneg_no_credit { balance := 10, session := .init } .plan none
    { provisionalChargedCredits := 0, remainingBalance := 10 }
    { balance := 10
      session := { SessionState.init with pendingGenerate := 1 } }
    (by
      unfold reserveCreditsForAction readRequiredPendingPairState
        roundCreditsNonNegativeNum roundCreditsNum roundCreditsNonNegative roundCredits
        jsRound CREDIT_PRECISION_FACTOR EPSILON SessionState.init
      simp only [show (BillingAction.plan = BillingAction.generate) = False by simp,
        show (BillingAction.plan = BillingAction.refine) = False by simp,
        show (BillingAction.plan = BillingAction.evaluate) = False by simp,
        show (BillingAction.plan = BillingAction.plan) = True by simp,
        if_true, if_false, ite_true, ite_false, or_self]
      norm_num)

theorem isMilli_MIN_BILLED : IsMilli MIN_BILLED_CREDITS :=
  isMilli_iff.mpr ⟨10, by unfold MIN_BILLED_CREDITS; norm_num⟩

theorem readPending_error {action : BillingAction} {fields : PairFieldSet}
    {s : SessionState} {e : BillingErr}
    (hf : pendingPairFieldsForAction action = some fields)
    (h : readRequiredPendingPairState action s = .error e) :
    e = .stalePairState action := by
  unfold readRequiredPendingPairState at h
  rw [hf] at h
  dsimp only at h
  by_cases hc : EPSILON < s.costOf fields ∧ 0 < s.tokensOf fields ∧
      EPSILON < roundCreditsNonNegative (s.reservedOf fields)
  · rw [if_pos hc] at h
    exact absurd h (by simp)
  · rw [if_neg hc] at h
    simp only [Except.error.injEq] at h
    exact h.symm

/-- C5 amended: a `generate` reservation on any session whose
`pendingGenerate` counter is below `1` fails with a `failed-precondition`
error (either the stale-pair-state guard or the ordering guard fires); the
transaction throws before any write, so balance and session are unchanged. -/
theorem generate_reserve_fails_below_one (st : LedgerState) (est : Option ℚ)
    (h : st.session.pendingGenerate < 1) :
    ∃ e, reserveCreditsForAction st .generate est = .error e ∧
      e.code = .failedPrecondition := by
  unfold reserveCreditsForAction
  simp only [show (BillingAction.generate = .generate) = True by simp,
    show (BillingAction.generate = .refine) = False by simp,
    show (BillingAction.generate = .plan) = False by simp,
    show (BillingAction.generate = .evaluate) = False by simp] at *
  simp only [if_true, if_false, ite_true, ite_false, true_or, or_false]
  cases hps : readRequiredPendingPairState .generate st.session with
  | error e =>
    refine ⟨e, by simp [Except.map], ?_⟩
    rw [@readPending_error .generate .planPair st.session e rfl hps]
    rfl
  | ok ps =>
    refine ⟨.stepsOutOfOrder .generate, ?_, rfl⟩
    simp only [Except.map]
    rw [if_pos ⟨by norm_num, h⟩]

/-- C5 amended witness: on a fresh session the `generate` reservation is
rejected with `failed-precondition`. -/
theorem generate_reserve_fails_below_one_witness :
    ({ balance := 0, session := .init } : LedgerState).session.pendingGenerate < 1 ∧
    ∃ e, reserveCreditsForAction { balance := 0, session := .init } .generate none =
        .error e ∧ e.code = .failedPrecondition :=
  ⟨by norm_num [SessionState.init],
   generate_reserve_fails_below_one { balance := 0, session := .init } none
     (by norm_num [SessionState.init])⟩

theorem ceilCredits_max_sub (bcr rsv : ℚ) (hb : IsMilli bcr) (hr : IsMilli rsv) :
    ceilCredits (max 0 (bcr - rsv)) = max 0 (bcr - rsv) :=
  ceilCredits_eq_self (isMilli_max isMilli_zero (isMilli_sub hb hr)) (le_max_left _ _)

/-- C7: a second-phase settlement with valid pending pair state always
succeeds — there is no balance-sufficiency check, and the statement carries
no hypothesis on the balance at all — charging exactly
`max(0, pairCredits − alreadyReservedCredits)` as an additional debit,
where `pairCredits` is the pricing curve applied to the stashed cost plus
this call's cost; the new balance may be negative. -/
theorem settle_second_phase_no_balance_check (E : ℚ → ℚ) (st : LedgerState)
    (action : BillingAction) (fields : PairFieldSet) (usage : UsageMetrics)
    (ps : PendingPairState)
    (hf : pendingPairFieldsForAction action = some fields)
    (hps : readRequiredPendingPairState action st.session = .ok ps) :
    ∃ b res st', computeGifBilling E (ps.pendingCostUsd + usage.totalUsd) = .ok b ∧
      settleActionBilling E st action usage none = .ok (res, st') ∧
      res.additionalChargedCredits = max 0 (b.billedCredits - ps.pendingReservedCredits) ∧
      res.remainingBalance =
        roundCredits (roundCredits st.balance - res.additionalChargedCredits) ∧
      st'.balance = res.remainingBalance := by
  have hpsm : IsMilli ps.pendingReservedCredits := by
    obtain ⟨hpse, -, -, -⟩ := readPending_ok hf hps
    rw [hpse]
    exact isMilli_roundCreditsNonNegative _
  cases action with
  | plan => exact absurd hf (by simp [pendingPairFieldsForAction])
  | evaluate => exact absurd hf (by simp [pendingPairFieldsForAction])
  | generate =>
    unfold settleActionBilling settleGifOrEvaluate
    simp only [pendingPairFieldsForAction] at hf ⊢
    rw [hps]
    dsimp only
    rw [computeGifBilling_eq]
    dsimp only
    refine ⟨_, _, _, rfl, rfl, ?_, ?_, rfl⟩
    · exact ceilCredits_max_sub _ _
        (isMilli_max isMilli_MIN_BILLED (isMilli_ceilCredits _)) hpsm
    · rw [ceilCredits_max_sub _ _
        (isMilli_max isMilli_MIN_BILLED (isMilli_ceilCredits _)) hpsm]
  | refine =>
    unfold settleActionBilling settleGifOrEvaluate
    simp only [pendingPairFieldsForAction] at hf ⊢
    rw [hps]
    dsimp only
    rw [computeGifBilling_eq]
    dsimp only
    refine ⟨_, _, _, rfl, rfl, ?_, ?_, rfl⟩
    · exact ceilCredits_max_sub _ _
        (isMilli_max isMilli_MIN_BILLED (isMilli_ceilCredits _)) hpsm
    · rw [ceilCredits_max_sub _ _
        (isMilli_max isMilli_MIN_BILLED (isMilli_ceilCredits _)) hpsm]

/-- C7 witness: with stashed cost `1` USD, `1` token, reserved `0.01`, and a
zero balance, the `generate` settlement succeeds and the additional debit
follows the `max(0, pairCredits − reserved)` formula — no balance check. -/
theorem settle_second_phase_no_balance_check_witness :
    ∃ b res st',
      computeGifBilling expModelOne ((1 : ℚ) + 0) = .ok b ∧
      settleActionBilling expModelOne
        { balance := 0
          session := { pendingGenerate := 1, pendingRefine := 0
                       pendingPlanCostUsd := 1, pendingPlanTokens := 1
                       pendingPlanReservedCredits := 1/100
                       pendingEvaluateCostUsd := 0, pendingEvaluateTokens := 0
                       pendingEvaluateReservedCredits := 0 } }
        .generate { totalTokens := 1, totalUsd := 0 } none = .ok (res, st') ∧
      res.additionalChargedCredits = max 0 (b.billedCredits - 1/100) ∧
      res.remainingBalance = roundCredits (roundCredits 0 - res.additionalChargedCredits) ∧
      st'.balance = res.remainingBalance :=
  settle_second_phase_no_balance_check expModelOne
    { balance := 0
      session := { pendingGenerate := 1, pendingRefine := 0
                   pendingPlanCostUsd := 1, pendingPlanTokens := 1
                   pendingPlanReservedCredits := 1/100
                   pendingEvaluateCostUsd := 0, pendingEvaluateTokens := 0
                   pendingEvaluateReservedCredits := 0 } }
    .generate .planPair { totalTokens := 1, totalUsd := 0 }
    { pendingCostUsd := 1, pendingTokens := 1, pendingReservedCredits := 1/100 }
    rfl
    (by
      unfold readRequiredPendingPairState
      dsimp only [pendingPairFieldsForAction, SessionState.costOf, SessionState.tokensOf,
        SessionState.reservedOf]
      unfold roundCreditsNonNegative roundCredits jsRound CREDIT_PRECISION_FACTOR EPSILON
      norm_num)

/-- C10: running a first-phase reservation twice in a row on the same
session overwrites the pair's reserved-credits field with only the second
charge and resets the stashed cost/tokens to zero, while both debits remain
on the balance — the first reservation's charge is neither refunded nor
counted toward the new pair. -/
theorem repeated_first_phase_forfeits (st : LedgerState) (a : BillingAction)
    (est1 est2 : Option ℚ) (r1 : ReservationResult) (st1 : LedgerState)
    (r2 : ReservationResult) (st2 : LedgerState)
    (ha : isChargeAction a = true)
    (hb : IsMilli st.balance)
    (h1 : reserveCreditsForAction st a est1 = .ok (r1, st1))
    (h2 : reserveCreditsForAction st1 a est2 = .ok (r2, st2)) :
    r2.provisionalChargedCredits = roundCreditsNonNegativeNum est2 ∧
    st2.session.reservedOf (reservationFieldsForAction a) = r2.provisionalChargedCredits ∧
    st2.session.costOf (reservationFieldsForAction a) = 0 ∧
    st2.session.tokensOf (reservationFieldsForAction a) = 0 ∧
    st2.balance = st.balance - r1.provisionalChargedCredits - r2.provisionalChargedCredits := by
  cases a with
  | generate => simp [isChargeAction] at ha
  | refine => simp [isChargeAction] at ha
  | plan =>
    obtain ⟨hc1, hr1, hst1, -⟩ := reserve_plan_ok h1
    subst hst1
    obtain ⟨hc2, hr2, hst2, -⟩ := reserve_plan_ok h2
    subst hst2
    have hc1m : IsMilli (roundCreditsNonNegativeNum est1) :=
      isMilli_roundCreditsNonNegativeNum est1
    have hc2m : IsMilli (roundCreditsNonNegativeNum est2) :=
      isMilli_roundCreditsNonNegativeNum est2
    have hb1 : r1.remainingBalance = st.balance - roundCreditsNonNegativeNum est1 := by
      rw [hr1, roundCredits_eq_self hb, roundCredits_eq_self (isMilli_sub hb hc1m)]
    have hb2 : r2.remainingBalance =
        st.balance - roundCreditsNonNegativeNum est1 - roundCreditsNonNegativeNum est2 := by
      rw [hr2]
      dsimp only
      rw [hb1, roundCredits_eq_self (isMilli_sub hb hc1m),
        roundCredits_eq_self (isMilli_sub (isMilli_sub hb hc1m) hc2m)]
    refine ⟨hc2, ?_, rfl, rfl, ?_⟩
    · dsimp only [reservationFieldsForAction, SessionState.reservedOf]
    · dsimp only
      rw [hb2, hc1, hc2]
  | evaluate =>
    obtain ⟨hc1, hr1, hst1, -⟩ := reserve_evaluate_ok h1
    subst hst1
    obtain ⟨hc2, hr2, hst2, -⟩ := reserve_evaluate_ok h2
    subst hst2
    have hc1m : IsMilli (roundCreditsNonNegativeNum est1) :=
      isMilli_roundCreditsNonNegativeNum est1
    have hc2m : IsMilli (roundCreditsNonNegativeNum est2) :=
      isMilli_roundCreditsNonNegativeNum est2
    have hb1 : r1.remainingBalance = st.balance - roundCreditsNonNegativeNum est1 := by
      rw [hr1, roundCredits_eq_self hb, roundCredits_eq_self (isMilli_sub hb hc1m)]
    have hb2 : r2.remainingBalance =
        st.balance - roundCreditsNonNegativeNum est1 - roundCreditsNonNegativeNum est2 := by
      rw [hr2]
      dsimp only
      rw [hb1, roundCredits_eq_self (isMilli_sub hb hc1m),
        roundCredits_eq_self (isMilli_sub (isMilli_sub hb hc1m) hc2m)]
    refine ⟨hc2, ?_, rfl, rfl, ?_⟩
    · dsimp only [reservationFieldsForAction, SessionState.reservedOf]
    · dsimp only
      rw [hb2, hc1, hc2]

/-- C10 witness: balance 2, `plan` reserving 1 then `plan` reserving 0 —
the reserved field ends at the second charge (0), the stash is zeroed, and
the balance carries both debits. -/
theorem repeated_first_phase_forfeits_witness :
    (0 : ℚ) = roundCreditsNonNegativeNum (some 0) ∧
    (0 : ℚ) = 0 ∧ (0 : ℚ) = 0 ∧ (0 : ℚ) = 0 ∧
    (1 : ℚ) = 2 - 1 - 0 :=
  repeated_first_phase_forfeits { balance := 2, session := .init } .plan
    (some 1) (some 0)
    { provisionalChargedCredits := 1, remainingBalance := 1 }
    { balance := 1
      session := { pendingGenerate := 1, pendingRefine := 0
                   pendingPlanCostUsd := 0, pendingPlanTokens := 0
                   pendingPlanReservedCredits := 1
                   pendingEvaluateCostUsd := 0, pendingEvaluateTokens := 0
                   pendingEvaluateReservedCredits := 0 } }
    { provisionalChargedCredits := 0, remainingBalance := 1 }
    { balance := 1
      session := { pendingGenerate := 2, pendingRefine := 0
                   pendingPlanCostUsd := 0, pendingPlanTokens := 0
                   pendingPlanReservedCredits := 0
                   pendingEvaluateCostUsd := 0, pendingEvaluateTokens := 0
                   pendingEvaluateReservedCredits := 0 } }
    rfl
    (by unfold IsMilli; norm_num)
    (by
      unfold reserveCreditsForAction readRequiredPendingPairState
        roundCreditsNonNegativeNum roundCreditsNum roundCreditsNonNegative roundCredits
        jsRound CREDIT_PRECISION_FACTOR EPSILON SessionState.init
      simp only [show (BillingAction.plan = BillingAction.generate) = False by simp,
        show (BillingAction.plan = BillingAction.refine) = False by simp,
        show (BillingAction.plan = BillingAction.evaluate) = False by simp,
        show (BillingAction.plan = BillingAction.plan) = True by simp,
        if_true, if_false, ite_true, ite_false, or_self]
      norm_num)
    (by
      unfold reserveCreditsForAction readRequiredPendingPairState
        roundCreditsNonNegativeNum roundCreditsNum roundCreditsNonNegative roundCredits
        jsRound CREDIT_PRECISION_FACTOR EPSILON
      simp only [show (BillingAction.plan = BillingAction.generate) = False by simp,
        show (BillingAction.plan = BillingAction.refine) = False by simp,
        show (BillingAction.plan = BillingAction.evaluate) = False by simp,
        show (BillingAction.plan = BillingAction.plan) = True by simp,
        if_true, if_false, ite_true, ite_false, or_self]
      norm_num)

theorem cexStep_plan_zero :
    reserveCreditsForAction { balance := 2, session := .init } .plan (some 0) =
      .ok ({ provisionalChargedCredits := 0, remainingBalance := 2 },
           { balance := 2
             session := { pendingGenerate := 1, pendingRefine := 0
                          pendingPlanCostUsd := 0, pendingPlanTokens := 0
                          pendingPlanReservedCredits := 0
                          pendingEvaluateCostUsd := 0, pendingEvaluateTokens := 0
                          pendingEvaluateReservedCredits := 0 } }) := by
  unfold reserveCreditsForAction readRequiredPendingPairState
    roundCreditsNonNegativeNum roundCreditsNum roundCreditsNonNegative roundCredits
    jsRound CREDIT_PRECISION_FACTOR EPSILON SessionState.init
  simp only [show (BillingAction.plan = BillingAction.generate) = False by simp,
    show (BillingAction.plan = BillingAction.refine) = False by simp,
    show (BillingAction.plan = BillingAction.evaluate) = False by simp,
    show (BillingAction.plan = BillingAction.plan) = True by simp,
    if_true, if_false, ite_true, ite_false, or_self]
  norm_num

theorem cexStep_plan_one :
    reserveCreditsForAction
      { balance := 2
        session := { pendingGenerate := 1, pendingRefine := 0
                     pendingPlanCostUsd := 0, pendingPlanTokens := 0
                     pendingPlanReservedCredits := 0
                     pendingEvaluateCostUsd := 0, pendingEvaluateTokens := 0
                     pendingEvaluateReservedCredits := 0 } } .plan (some 1) =
      .ok ({ provisionalChargedCredits := 1, remainingBalance := 1 },
           { balance := 1
             session := { pendingGenerate := 2, pendingRefine := 0
                          pendingPlanCostUsd := 0, pendingPlanTokens := 0
                          pendingPlanReservedCredits := 1
                          pendingEvaluateCostUsd := 0, pendingEvaluateTokens := 0
                          pendingEvaluateReservedCredits := 0 } }) := by
  unfold reserveCreditsForAction readRequiredPendingPairState
    roundCreditsNonNegativeNum roundCreditsNum roundCreditsNonNegative roundCredits
    jsRound CREDIT_PRECISION_FACTOR EPSILON
  simp only [show (BillingAction.plan = BillingAction.generate) = False by simp,
    show (BillingAction.plan = BillingAction.refine) = False by simp,
    show (BillingAction.plan = BillingAction.evaluate) = False by simp,
    show (BillingAction.plan = BillingAction.plan) = True by simp,
    if_true, if_false, ite_true, ite_false, or_self]
  norm_num

/-- C3 counterexample: from a fresh session with balance 2, running `plan`
twice (both reservations permitted by every guard) reaches a state whose
`pendingGenerate` counter is `2` — the counter is not bounded by `1`. -/
theorem pending_counter_exceeds_one_counterexample :
    ∃ st, ReachableLedger expModelOne 2 st ∧ st.session.pendingGenerate = 2 := by
  refine ⟨{ balance := 1
            session := { pendingGenerate := 2, pendingRefine := 0
                         pendingPlanCostUsd := 0, pendingPlanTokens := 0
                         pendingPlanReservedCredits := 1
                         pendingEvaluateCostUsd := 0, pendingEvaluateTokens := 0
                         pendingEvaluateReservedCredits := 0 } }, ?_, rfl⟩
  exact Relation.ReflTransGen.tail
    (Relation.ReflTransGen.single
      (LedgerStep.reserve .plan (some 0) _ cexStep_plan_zero))
    (LedgerStep.reserve .plan (some 1) _ cexStep_plan_one)

theorem ledgerStep_preserves_counters {E : ℚ → ℚ} {st st' : LedgerState}
    (hstep : LedgerStep E st st')
    (h : 0 ≤ st.session.pendingGenerate ∧ 0 ≤ st.session.pendingRefine) :
    0 ≤ st'.session.pendingGenerate ∧ 0 ≤ st'.session.pendingRefine := by
  cases hstep with
  | reserve action est r heq =>
    cases action with
    | plan =>
      obtain ⟨-, -, hst, -⟩ := reserve_plan_ok heq
      subst hst
      refine ⟨?_, ?_⟩ <;> dsimp <;> omega
    | evaluate =>
      obtain ⟨-, -, hst, -⟩ := reserve_evaluate_ok heq
      subst hst
      refine ⟨?_, ?_⟩ <;> dsimp <;> omega
    | generate =>
      obtain ⟨ps, -, -, -, hpg, -, hst⟩ := reserve_generate_ok heq
      subst hst
      refine ⟨?_, ?_⟩ <;> dsimp <;> omega
    | refine =>
      obtain ⟨ps, -, -, -, hpr, -, hst⟩ := reserve_refine_ok heq
      subst hst
      refine ⟨?_, ?_⟩ <;> dsimp <;> omega
  | settle action usage opts res heq =>
    cases opts with
    | some o =>
      cases action with
      | plan =>
        obtain ⟨-, hst⟩ := settle_rollback_plan_ok heq
        subst hst
        exact ⟨le_max_left _ _, le_max_left _ _⟩
      | evaluate =>
        obtain ⟨-, hst⟩ := settle_rollback_evaluate_ok heq
        subst hst
        exact ⟨le_max_left _ _, le_max_left _ _⟩
      | generate =>
        obtain ⟨-, hst⟩ := settle_rollback_generate_ok heq
        subst hst
        exact ⟨le_max_left _ _, le_max_left _ _⟩
      | refine =>
        obtain ⟨-, hst⟩ := settle_rollback_refine_ok heq
        subst hst
        exact ⟨le_max_left _ _, le_max_left _ _⟩
    | none =>
      cases action with
      | plan =>
        obtain ⟨-, hst⟩ := settle_plan_stash_ok heq
        subst hst
        exact h
      | evaluate =>
        obtain ⟨-, hst⟩ := settle_evaluate_stash_ok heq
        subst hst
        exact h
      | generate =>
        obtain ⟨ps, b, -, -, -, hst⟩ := settle_generate_settles_ok heq
        subst hst
        exact h
      | refine =>
        obtain ⟨ps, b, -, -, -, hst⟩ := settle_refine_settles_ok heq
        subst hst
        exact h

/-- C3 amended: in every reachable session state the pending counters are
never negative, and a second-phase reservation only succeeds when the
matching counter is at least `1` (not exactly `1`: repeated first-phase
reservations can push a counter above `1`, as the counterexample shows). -/
theorem pending_counters_amended (E : ℚ → ℚ) (b0 : ℚ) :
    (∀ st, ReachableLedger E b0 st →
        0 ≤ st.session.pendingGenerate ∧ 0 ≤ st.session.pendingRefine) ∧
    (∀ st est r st', reserveCreditsForAction st .generate est = .ok (r, st') →
        1 ≤ st.session.pendingGenerate) ∧
    (∀ st est r st', reserveCreditsForAction st .refine est = .ok (r, st') →
        1 ≤ st.session.pendingRefine) := by
  refine ⟨?_, ?_, ?_⟩
  · intro st h
    induction h with
    | refl => exact ⟨le_refl 0, le_refl 0⟩
    | tail hsteps hstep ih => exact ledgerStep_preserves_counters hstep ih
  · intro st est r st' h
    obtain ⟨ps, -, -, -, hpg, -, -⟩ := reserve_generate_ok h
    exact hpg
  · intro st est r st' h
    obtain ⟨ps, -, -, -, hpr, -, -⟩ := reserve_refine_ok h
    exact hpr

/-- C3 amended witness: the fresh session satisfies the counter bounds. -/
theorem pending_counters_amended_witness :
    0 ≤ SessionState.init.pendingGenerate ∧ 0 ≤ SessionState.init.pendingRefine :=
  (pending_counters_amended expModelOne 0).1 { balance := 0, session := .init }
    Relation.ReflTransGen.refl

theorem cexStep_stash_plan :
    settleActionBilling expModelOne
      { balance := 1
        session := { pendingGenerate := 2, pendingRefine := 0
                     pendingPlanCostUsd := 0, pendingPlanTokens := 0
                     pendingPlanReservedCredits := 1
                     pendingEvaluateCostUsd := 0, pendingEvaluateTokens := 0
                     pendingEvaluateReservedCredits := 0 } } .plan
      { totalTokens := 10, totalUsd := 1 } none =
      .ok ({ remainingBalance := 1, additionalChargedCredits := 0
             pairCreditsCharged := none, pairRawCredits := none
             pairDisplayCredits := none },
           { balance := 1
             session := { pendingGenerate := 2, pendingRefine := 0
                          pendingPlanCostUsd := 1, pendingPlanTokens := 10
                          pendingPlanReservedCredits := 1
                          pendingEvaluateCostUsd := 0, pendingEvaluateTokens := 0
                          pendingEvaluateReservedCredits := 0 } }) := by
  unfold settleActionBilling roundCredits jsRound CREDIT_PRECISION_FACTOR
  norm_num

theorem cexStep_generate_at_two :
    reserveCreditsForAction
      { balance := 1
        session := { pendingGenerate := 2, pendingRefine := 0
                     pendingPlanCostUsd := 1, pendingPlanTokens := 10
                     pendingPlanReservedCredits := 1
                     pendingEvaluateCostUsd := 0, pendingEvaluateTokens := 0
                     pendingEvaluateReservedCredits := 0 } } .generate (some 0) =
      .ok ({ provisionalChargedCredits := 0, remainingBalance := 1 },
           { balance := 1
             session := { pendingGenerate := 1, pendingRefine := 0
                          pendingPlanCostUsd := 1, pendingPlanTokens := 10
                          pendingPlanReservedCredits := 1
                          pendingEvaluateCostUsd := 0, pendingEvaluateTokens := 0
                          pendingEvaluateReservedCredits := 0 } }) := by
  unfold reserveCreditsForAction readRequiredPendingPairState
    roundCreditsNonNegativeNum roundCreditsNum roundCreditsNonNegative roundCredits
    ceilCredits jsRound CREDIT_PRECISION_FACTOR EPSILON
  simp only [show (BillingAction.generate = BillingAction.generate) = True by simp,
    show (BillingAction.generate = BillingAction.refine) = False by simp,
    show (BillingAction.generate = BillingAction.plan) = False by simp,
    show (BillingAction.generate = BillingAction.evaluate) = False by simp,
    if_true, if_false, ite_true, ite_false, true_or, or_false, pendingPairFieldsForAction,
    SessionState.costOf, SessionState.tokensOf, SessionState.reservedOf, Except.map]
  norm_num

/-- C5 counterexample: after `plan`, `plan`, and the first-phase stash, the
session's `pendingGenerate` counter is `2` — not `1` — and yet a `generate`
reservation succeeds: the ordering guard only rejects counters below `1`. -/
theorem generate_succeeds_counter_not_one_counterexample :
    ∃ st r st', ReachableLedger expModelOne 2 st ∧
      st.session.pendingGenerate ≠ 1 ∧
      reserveCreditsForAction st .generate (some 0) = .ok (r, st') := by
  refine ⟨{ balance := 1
            session := { pendingGenerate := 2, pendingRefine := 0
                         pendingPlanCostUsd := 1, pendingPlanTokens := 10
                         pendingPlanReservedCredits := 1
                         pendingEvaluateCostUsd := 0, pendingEvaluateTokens := 0
                         pendingEvaluateReservedCredits := 0 } },
    _, _, ?_, by norm_num, cexStep_generate_at_two⟩
  exact Relation.ReflTransGen.tail
    (Relation.ReflTransGen.tail
      (Relation.ReflTransGen.single
        (LedgerStep.reserve .plan (some 0) _ cexStep_plan_zero))
      (LedgerStep.reserve .plan (some 1) _ cexStep_plan_one))
    (LedgerStep.settle .plan { totalTokens := 10, totalUsd := 1 } none _ cexStep_stash_plan)

/-- Well-formedness of a ledger state as maintained by every write path:
balance and reserved fields at ledger precision, reserved fields and
counters non-negative. -/
def LedgerWF (st : LedgerState) : Prop :=
  IsMilli st.balance ∧
  0 ≤ st.session.pendingGenerate ∧ 0 ≤ st.session.pendingRefine ∧
  IsMilli st.session.pendingPlanReservedCredits ∧
  0 ≤ st.session.pendingPlanReservedCredits ∧
  IsMilli st.session.pendingEvaluateReservedCredits ∧
  0 ≤ st.session.pendingEvaluateReservedCredits

theorem round_restore {b c : ℚ} (hb : IsMilli b) (hc : IsMilli c) (h0 : 0 ≤ c) :
    roundCredits (roundCredits (b - c) + roundCreditsNonNegative c) = b := by
  rw [roundCredits_eq_self (isMilli_sub hb hc), roundCreditsNonNegative_eq_self hc h0,
    show b - c + c = b by ring]
  exact roundCredits_eq_self hb

theorem rollback_newbalance {b c bal1 : ℚ} (hb : IsMilli b) (hc : IsMilli c) (h0 : 0 ≤ c)
    (h1 : bal1 = b - c) :
    (if 0 < roundCreditsNonNegative c then
        roundCredits (roundCredits bal1 + roundCreditsNonNegative c)
      else bal1) = b := by
  rw [h1, roundCreditsNonNegative_eq_self hc h0]
  rcases h0.lt_or_eq with hpos | hzero
  · rw [if_pos hpos, roundCredits_eq_self (isMilli_sub hb hc),
      show b - c + c = b by ring]
    exact roundCredits_eq_self hb
  · rw [if_neg (by rw [← hzero]; exact lt_irrefl 0), ← hzero, sub_zero]

theorem roundNN_zero : roundCreditsNonNegative (0 : ℚ) = 0 :=
  roundCreditsNonNegative_eq_self isMilli_zero le_rfl

/-- C4 amended: a reservation followed by a rollback of exactly the charged
amount restores the balance and both pending counters to their
pre-reservation values; the pair's reserved-credits field is restored for
second-phase actions, while for a first-phase action it ends at `0` (the
reservation overwrote it, so `0` is the pre-reservation value exactly when
the pair was fresh). -/
theorem rollback_exact_roundtrip (E : ℚ → ℚ) (st : LedgerState) (a : BillingAction)
    (est : Option ℚ) (r : ReservationResult) (st1 : LedgerState)
    (res : BillingSettlementResult) (st2 : LedgerState)
    (hwf : LedgerWF st)
    (h1 : reserveCreditsForAction st a est = .ok (r, st1))
    (h2 : settleActionBilling E st1 a ZERO_USAGE_METRICS
        (some { provisionalChargedCredits := r.provisionalChargedCredits }) =
      .ok (res, st2)) :
    st2.balance = st.balance ∧
    res.remainingBalance = st.balance ∧
    st2.session.pendingGenerate = st.session.pendingGenerate ∧
    st2.session.pendingRefine = st.session.pendingRefine ∧
    ((a = .generate ∨ a = .refine) →
      st2.session.reservedOf (reservationFieldsForAction a) =
        st.session.reservedOf (reservationFieldsForAction a)) ∧
    ((a = .plan ∨ a = .evaluate) →
      st2.session.reservedOf (reservationFieldsForAction a) = 0) := by
  obtain ⟨hbm, hpg0, hpr0, hprm, hprn, hevm, hevn⟩ := hwf
  cases a with
  | plan =>
    obtain ⟨hc, hr, hst1, -⟩ := reserve_plan_ok h1
    subst hst1
    obtain ⟨hres, hst2⟩ := settle_rollback_plan_ok h2
    subst hst2
    have hcm : IsMilli r.provisionalChargedCredits := by
      rw [hc]; exact isMilli_roundCreditsNonNegativeNum est
    have hcn : 0 ≤ r.provisionalChargedCredits := by
      rw [hc]; exact roundCreditsNonNegativeNum_nonneg est
    have hL1 : r.remainingBalance = st.balance - r.provisionalChargedCredits := by
      rw [hr, hc, roundCredits_eq_self hbm,
        roundCredits_eq_self (isMilli_sub hbm (isMilli_roundCreditsNonNegativeNum est))]
    refine ⟨?_, ?_, ?_, ?_, ?_, fun _ => ?_⟩
    · exact rollback_newbalance hbm hcm hcn hL1
    · rw [hres]
      dsimp only
      rw [hL1]
      exact round_restore hbm hcm hcn
    · dsimp only
      omega
    · dsimp only
      omega
    · rintro (hx | hx) <;> exact absurd hx (by simp)
    · dsimp only [reservationFieldsForAction, SessionState.reservedOf]
      rw [roundCreditsNonNegative_eq_self hcm hcn, sub_self, roundNN_zero]
  | evaluate =>
    obtain ⟨hc, hr, hst1, -⟩ := reserve_evaluate_ok h1
    subst hst1
    obtain ⟨hres, hst2⟩ := settle_rollback_evaluate_ok h2
    subst hst2
    have hcm : IsMilli r.provisionalChargedCredits := by
      rw [hc]; exact isMilli_roundCreditsNonNegativeNum est
    have hcn : 0 ≤ r.provisionalChargedCredits := by
      rw [hc]; exact roundCreditsNonNegativeNum_nonneg est
    have hL1 : r.remainingBalance = st.balance - r.provisionalChargedCredits := by
      rw [hr, hc, roundCredits_eq_self hbm,
        roundCredits_eq_self (isMilli_sub hbm (isMilli_roundCreditsNonNegativeNum est))]
    refine ⟨?_, ?_, ?_, ?_, ?_, fun _ => ?_⟩
    · exact rollback_newbalance hbm hcm hcn hL1
    · rw [hres]
      dsimp only
      rw [hL1]
      exact round_restore hbm hcm hcn
    · dsimp only
      omega
    · dsimp only
      omega
    · rintro (hx | hx) <;> exact absurd hx (by simp)
    · dsimp only [reservationFieldsForAction, SessionState.reservedOf]
      rw [roundCreditsNonNegative_eq_self hcm hcn, sub_self, roundNN_zero]
  | generate =>
    obtain ⟨ps, -, hc, hr, hpg1, -, hst1⟩ := reserve_generate_ok h1
    subst hst1
    obtain ⟨hres, hst2⟩ := settle_rollback_generate_ok h2
    subst hst2
    have hcm : IsMilli r.provisionalChargedCredits := by
      rw [hc]; exact isMilli_ceilCredits _
    have hcn : 0 ≤ r.provisionalChargedCredits := by
      rw [hc]; exact ceilCredits_nonneg _
    have hL1 : r.remainingBalance = st.balance - r.provisionalChargedCredits := by
      rw [hr, roundCredits_eq_self hbm, roundCredits_eq_self (isMilli_sub hbm hcm)]
    have hv : roundCreditsNonNegative st.session.pendingPlanReservedCredits =
        st.session.pendingPlanReservedCredits :=
      roundCreditsNonNegative_eq_self hprm hprn
    refine ⟨?_, ?_, ?_, ?_, fun _ => ?_, ?_⟩
    · exact rollback_newbalance hbm hcm hcn hL1
    · rw [hres]
      dsimp only
      rw [hL1]
      exact round_restore hbm hcm hcn
    · dsimp only
      omega
    · dsimp only
      omega
    · dsimp only [reservationFieldsForAction, SessionState.reservedOf]
      rw [hv, roundCreditsNonNegative_eq_self
          (isMilli_add hprm hcm) (by linarith),
        roundCreditsNonNegative_eq_self hcm hcn,
        roundCreditsNonNegative_eq_self (isMilli_add hprm hcm) (by linarith),
        add_sub_cancel_right, hv]
    · rintro (hx | hx) <;> exact absurd hx (by simp)
  | refine =>
    obtain ⟨ps, -, hc, hr, hpr1, -, hst1⟩ := reserve_refine_ok h1
    subst hst1
    obtain ⟨hres, hst2⟩ := settle_rollback_refine_ok h2
    subst hst2
    have hcm : IsMilli r.provisionalChargedCredits := by
      rw [hc]; exact isMilli_ceilCredits _
    have hcn : 0 ≤ r.provisionalChargedCredits := by
      rw [hc]; exact ceilCredits_nonneg _
    have hL1 : r.remainingBalance = st.balance - r.provisionalChargedCredits := by
      rw [hr, roundCredits_eq_self hbm, roundCredits_eq_self (isMilli_sub hbm hcm)]
    have hv : roundCreditsNonNegative st.session.pendingEvaluateReservedCredits =
        st.session.pendingEvaluateReservedCredits :=
      roundCreditsNonNegative_eq_self hevm hevn
    refine ⟨?_, ?_, ?_, ?_, fun _ => ?_, ?_⟩
    · exact rollback_newbalance hbm hcm hcn hL1
    · rw [hres]
      dsimp only
      rw [hL1]
      exact round_restore hbm hcm hcn
    · dsimp only
      omega
    · dsimp only
      omega
    · dsimp only [reservationFieldsForAction, SessionState.reservedOf]
      rw [hv, roundCreditsNonNegative_eq_self
          (isMilli_add hevm hcm) (by linarith),
        roundCreditsNonNegative_eq_self hcm hcn,
        roundCreditsNonNegative_eq_self (isMilli_add hevm hcm) (by linarith),
        add_sub_cancel_right, hv]
    · rintro (hx | hx) <;> exact absurd hx (by simp)

theorem stepPlanOneFresh :
    reserveCreditsForAction { balance := 2, session := .init } .plan (some 1) =
      .ok ({ provisionalChargedCredits := 1, remainingBalance := 1 },
           { balance := 1
             session := { pendingGenerate := 1, pendingRefine := 0
                          pendingPlanCostUsd := 0, pendingPlanTokens := 0
                          pendingPlanReservedCredits := 1
                          pendingEvaluateCostUsd := 0, pendingEvaluateTokens := 0
                          pendingEvaluateReservedCredits := 0 } }) := by
  unfold reserveCreditsForAction readRequiredPendingPairState
    roundCreditsNonNegativeNum roundCreditsNum roundCreditsNonNegative roundCredits
    jsRound CREDIT_PRECISION_FACTOR EPSILON SessionState.init
  simp only [show (BillingAction.plan = BillingAction.generate) = False by simp,
    show (BillingAction.plan = BillingAction.refine) = False by simp,
    show (BillingAction.plan = BillingAction.evaluate) = False by simp,
    show (BillingAction.plan = BillingAction.plan) = True by simp,
    if_true, if_false, ite_true, ite_false, or_self]
  norm_num

theorem cexStep_plan_zero_on_pair :
    reserveCreditsForAction
      { balance := 1
        session := { pendingGenerate := 1, pendingRefine := 0
                     pendingPlanCostUsd := 0, pendingPlanTokens := 0
                     pendingPlanReservedCredits := 1
                     pendingEvaluateCostUsd := 0, pendingEvaluateTokens := 0
                     pendingEvaluateReservedCredits := 0 } } .plan (some 0) =
      .ok ({ provisionalChargedCredits := 0, remainingBalance := 1 },
           { balance := 1
             session := { pendingGenerate := 2, pendingRefine := 0
                          pendingPlanCostUsd := 0, pendingPlanTokens := 0
                          pendingPlanReservedCredits := 0
                          pendingEvaluateCostUsd := 0, pendingEvaluateTokens := 0
                          pendingEvaluateReservedCredits := 0 } }) := by
  unfold reserveCreditsForAction readRequiredPendingPairState
    roundCreditsNonNegativeNum roundCreditsNum roundCreditsNonNegative roundCredits
    jsRound CREDIT_PRECISION_FACTOR EPSILON
  simp only [show (BillingAction.plan = BillingAction.generate) = False by simp,
    show (BillingAction.plan = BillingAction.refine) = False by simp,
    show (BillingAction.plan = BillingAction.evaluate) = False by simp,
    show (BillingAction.plan = BillingAction.plan) = True by simp,
    if_true, if_false, ite_true, ite_false, or_self]
  norm_num

theorem cexStep_rollback_zero :
    settleActionBilling expModelOne
      { balance := 1
        session := { pendingGenerate := 2, pendingRefine := 0
                     pendingPlanCostUsd := 0, pendingPlanTokens := 0
                     pendingPlanReservedCredits := 0
                     pendingEvaluateCostUsd := 0, pendingEvaluateTokens := 0
                     pendingEvaluateReservedCredits := 0 } } .plan
      ZERO_USAGE_METRICS (some { provisionalChargedCredits := 0 }) =
      .ok ({ remainingBalance := 1, additionalChargedCredits := 0
             pairCreditsCharged := none, pairRawCredits := none
             pairDisplayCredits := none },
           { balance := 1
             session := { pendingGenerate := 1, pendingRefine := 0
                          pendingPlanCostUsd := 0, pendingPlanTokens := 0
                          pendingPlanReservedCredits := 0
                          pendingEvaluateCostUsd := 0, pendingEvaluateTokens := 0
                          pendingEvaluateReservedCredits := 0 } }) := by
  unfold settleActionBilling ZERO_USAGE_METRICS roundCreditsNonNegative roundCredits
    jsRound CREDIT_PRECISION_FACTOR
  simp only [show (BillingAction.plan = BillingAction.generate) = False by simp,
    show (BillingAction.plan = BillingAction.refine) = False by simp,
    show (BillingAction.plan = BillingAction.evaluate) = False by simp,
    show (BillingAction.plan = BillingAction.plan) = True by simp,
    if_true, if_false, ite_true, ite_false, true_or, reservationFieldsForAction,
    SessionState.setReserved, SessionState.setCost, SessionState.setTokens,
    SessionState.reservedOf]
  norm_num

/-- C4 counterexample: on a reachable session that already carries a plan
reservation of `1` credit, a second `plan` reservation charging `0`
followed by its rollback leaves `pendingPlanReservedCredits` at `0`, not at
its pre-reservation value `1` — a first-phase rollback zeroes the field
instead of restoring it. -/
theorem rollback_not_restoring_counterexample :
    ∃ st r st1 res st2,
      ReachableLedger expModelOne 2 st ∧
      st.session.pendingPlanReservedCredits = 1 ∧
      reserveCreditsForAction st .plan (some 0) = .ok (r, st1) ∧
      settleActionBilling expModelOne st1 .plan ZERO_USAGE_METRICS
        (some { provisionalChargedCredits := r.provisionalChargedCredits }) =
        .ok (res, st2) ∧
      st2.session.pendingPlanReservedCredits = 0 ∧
      st2.session.pendingPlanReservedCredits ≠ st.session.pendingPlanReservedCredits := by
  refine ⟨{ balance := 1
            session := { pendingGenerate := 1, pendingRefine := 0
                         pendingPlanCostUsd := 0, pendingPlanTokens := 0
                         pendingPlanReservedCredits := 1
                         pendingEvaluateCostUsd := 0, pendingEvaluateTokens := 0
                         pendingEvaluateReservedCredits := 0 } },
    _, _, _, _,
    Relation.ReflTransGen.single (LedgerStep.reserve .plan (some 1) _ stepPlanOneFresh),
    rfl, cexStep_plan_zero_on_pair, cexStep_rollback_zero, rfl, by norm_num⟩

/-- C4 amended witness: reserving 1 credit on a fresh session with balance
2 and rolling it back restores balance 2 and both counters, and resets the
plan reserved field to 0. -/
theorem rollback_exact_roundtrip_witness :
    (2 : ℚ) = 2 ∧ (2 : ℚ) = 2 ∧ (0 : ℤ) = 0 ∧ (0 : ℤ) = 0 ∧
    ((BillingAction.plan = .generate ∨ BillingAction.plan = .refine) → (0 : ℚ) = 0) ∧
    ((BillingAction.plan = .plan ∨ BillingAction.plan = .evaluate) → (0 : ℚ) = 0) :=
  rollback_exact_roundtrip expModelOne { balance := 2, session := .init } .plan (some 1)
    { provisionalChargedCredits := 1, remainingBalance := 1 }
    { balance := 1
      session := { pendingGenerate := 1, pendingRefine := 0
                   pendingPlanCostUsd := 0, pendingPlanTokens := 0
                   pendingPlanReservedCredits := 1
                   pendingEvaluateCostUsd := 0, pendingEvaluateTokens := 0
                   pendingEvaluateReservedCredits := 0 } }
    { remainingBalance := 2, additionalChargedCredits := 0
      pairCreditsCharged := none, pairRawCredits := none, pairDisplayCredits := none }
    { balance := 2
      session := { pendingGenerate := 0, pendingRefine := 0
                   pendingPlanCostUsd := 0, pendingPlanTokens := 0
                   pendingPlanReservedCredits := 0
                   pendingEvaluateCostUsd := 0, pendingEvaluateTokens := 0
                   pendingEvaluateReservedCredits := 0 } }
    (by
      unfold LedgerWF IsMilli SessionState.init
      norm_num)
    stepPlanOneFresh
    (by
      unfold settleActionBilling ZERO_USAGE_METRICS roundCreditsNonNegative roundCredits
        jsRound CREDIT_PRECISION_FACTOR
      simp only [show (BillingAction.plan = BillingAction.generate) = False by simp,
        show (BillingAction.plan = BillingAction.refine) = False by simp,
        show (BillingAction.plan = BillingAction.evaluate) = False by simp,
        show (BillingAction.plan = BillingAction.plan) = True by simp,
        if_true, if_false, ite_true, ite_false, true_or, reservationFieldsForAction,
        SessionState.setReserved, SessionState.setCost, SessionState.setTokens,
        SessionState.reservedOf]
      norm_num)

theorem sub_sub_max0 (b R P : ℚ) : b - R - max 0 (P - R) = b - max P R := by
  rcases le_total P R with h | h
  · rw [max_eq_left (sub_nonpos.mpr h), max_eq_right h]
    ring
  · rw [max_eq_right (sub_nonneg.mpr h), max_eq_left h]
    ring

theorem computeGifBilling_billed_facts {E : ℚ → ℚ} {c : ℚ} {b : GifBillingComputation}
    (h : computeGifBilling E c = .ok b) :
    IsMilli b.billedCredits ∧ MIN_BILLED_CREDITS ≤ b.billedCredits := by
  rw [computeGifBilling_eq] at h
  simp only [Except.ok.injEq] at h
  rw [← h]
  exact ⟨isMilli_max isMilli_MIN_BILLED (isMilli_ceilCredits _), le_max_left _ _⟩

/-- C1 amended: for a completed `plan`→`generate` pair from a fresh session,
`finalBalance = initialBalance − max(billedCredits(totalPairCost),
totalReservedForPair)`; the claimed conservation equality
`finalBalance = initialBalance − billedCredits(totalPairCost)` holds
exactly when the total reservation does not exceed the billed pair credits
— an over-reservation is kept, not refunded. -/
theorem plan_generate_pair_balance (E : ℚ → ℚ) (b0 : ℚ) (est1 est2 : Option ℚ)
    (usage1 usage2 : UsageMetrics)
    (r1 : ReservationResult) (st1 : LedgerState) (res1 : BillingSettlementResult)
    (st2 : LedgerState) (r2 : ReservationResult) (st3 : LedgerState)
    (res2 : BillingSettlementResult) (st4 : LedgerState)
    (hb : IsMilli b0)
    (h1 : reserveCreditsForAction { balance := b0, session := .init } .plan est1 =
        .ok (r1, st1))
    (h2 : settleActionBilling E st1 .plan usage1 none = .ok (res1, st2))
    (h3 : reserveCreditsForAction st2 .generate est2 = .ok (r2, st3))
    (h4 : settleActionBilling E st3 .generate usage2 none = .ok (res2, st4)) :
    ∃ pb, computeGifBilling E (usage1.totalUsd + usage2.totalUsd) = .ok pb ∧
      st4.balance = b0 - max pb.billedCredits
        (r1.provisionalChargedCredits + r2.provisionalChargedCredits) ∧
      (r1.provisionalChargedCredits + r2.provisionalChargedCredits ≤ pb.billedCredits →
        st4.balance = b0 - pb.billedCredits) := by
  obtain ⟨hc1, hr1, hst1, -⟩ := reserve_plan_ok h1
  subst hst1
  obtain ⟨-, hst2⟩ := settle_plan_stash_ok h2
  subst hst2
  obtain ⟨ps', -, hc2, hr2, -, -, hst3⟩ := reserve_generate_ok h3
  subst hst3
  obtain ⟨ps, b, hps, hbill, hres2, hst4⟩ := settle_generate_settles_ok h4
  subst hst4
  have hc1m : IsMilli r1.provisionalChargedCredits := by
    rw [hc1]; exact isMilli_roundCreditsNonNegativeNum est1
  have hc1n : 0 ≤ r1.provisionalChargedCredits := by
    rw [hc1]; exact roundCreditsNonNegativeNum_nonneg est1
  have hc2m : IsMilli r2.provisionalChargedCredits := by
    rw [hc2]; exact isMilli_ceilCredits _
  have hc2n : 0 ≤ r2.provisionalChargedCredits := by
    rw [hc2]; exact ceilCredits_nonneg _
  have hb1 : r1.remainingBalance = b0 - r1.provisionalChargedCredits := by
    rw [hr1, ← hc1]
    dsimp only
    rw [roundCredits_eq_self hb, roundCredits_eq_self (isMilli_sub hb hc1m)]
  have hb2 : r2.remainingBalance =
      b0 - r1.provisionalChargedCredits - r2.provisionalChargedCredits := by
    rw [hr2]
    dsimp only
    rw [hb1, roundCredits_eq_self (isMilli_sub hb hc1m),
      roundCredits_eq_self (isMilli_sub (isMilli_sub hb hc1m) hc2m)]
  obtain ⟨hpse, -, -, -⟩ := @readPending_ok .generate .planPair _ ps rfl hps
  have hcost : ps.pendingCostUsd = usage1.totalUsd := by
    rw [hpse]
    rfl
  have hresv : ps.pendingReservedCredits =
      r1.provisionalChargedCredits + r2.provisionalChargedCredits := by
    rw [hpse]
    dsimp only [SessionState.reservedOf]
    rw [roundCreditsNonNegative_eq_self hc1m hc1n,
      roundCreditsNonNegative_eq_self (isMilli_add hc1m hc2m) (by linarith),
      roundCreditsNonNegative_eq_self (isMilli_add hc1m hc2m) (by linarith)]
  rw [hcost] at hbill
  obtain ⟨hbm2, hbmin⟩ := computeGifBilling_billed_facts hbill
  have hfinal : res2.remainingBalance =
      b0 - max b.billedCredits
        (r1.provisionalChargedCredits + r2.provisionalChargedCredits) := by
    rw [hres2]
    dsimp only
    rw [hresv, hb2,
      ceilCredits_max_sub _ _ hbm2 (isMilli_add hc1m hc2m),
      roundCredits_eq_self (isMilli_sub (isMilli_sub hb hc1m) hc2m),
      roundCredits_eq_self]
    · rcases le_total b.billedCredits
          (r1.provisionalChargedCredits + r2.provisionalChargedCredits) with hcase | hcase
      · rw [max_eq_left (sub_nonpos.mpr hcase), max_eq_right hcase]
        ring
      · rw [max_eq_right (sub_nonneg.mpr hcase), max_eq_left hcase]
        ring
    · exact isMilli_sub (isMilli_sub (isMilli_sub hb hc1m) hc2m)
        (isMilli_max isMilli_zero
          (isMilli_sub hbm2 (isMilli_add hc1m hc2m)))
  refine ⟨b, hbill, ?_, ?_⟩
  · dsimp only
    exact hfinal
  · intro hle
    dsimp only
    rw [hfinal, max_eq_left hle]

theorem c1excess_step1 :
    reserveCreditsForAction { balance := 2000, session := .init } .plan (some 1000) =
      .ok ({ provisionalChargedCredits := 1000, remainingBalance := 1000 },
           { balance := 1000
             session := { pendingGenerate := 1, pendingRefine := 0
                          pendingPlanCostUsd := 0, pendingPlanTokens := 0
                          pendingPlanReservedCredits := 1000
                          pendingEvaluateCostUsd := 0, pendingEvaluateTokens := 0
                          pendingEvaluateReservedCredits := 0 } }) := by
  unfold reserveCreditsForAction readRequiredPendingPairState
    roundCreditsNonNegativeNum roundCreditsNum roundCreditsNonNegative roundCredits
    jsRound CREDIT_PRECISION_FACTOR EPSILON SessionState.init
  simp only [show (BillingAction.plan = BillingAction.generate) = False by simp,
    show (BillingAction.plan = BillingAction.refine) = False by simp,
    show (BillingAction.plan = BillingAction.evaluate) = False by simp,
    show (BillingAction.plan = BillingAction.plan) = True by simp,
    if_true, if_false, ite_true, ite_false, or_self]
  norm_num

theorem c1excess_step2 :
    settleActionBilling expModelOne
      { balance := 1000
        session := { pendingGenerate := 1, pendingRefine := 0
                     pendingPlanCostUsd := 0, pendingPlanTokens := 0
                     pendingPlanReservedCredits := 1000
                     pendingEvaluateCostUsd := 0, pendingEvaluateTokens := 0
                     pendingEvaluateReservedCredits := 0 } } .plan
      { totalTokens := 1, totalUsd := 1/1000 } none =
      .ok ({ remainingBalance := 1000, additionalChargedCredits := 0
             pairCreditsCharged := none, pairRawCredits := none
             pairDisplayCredits := none },
           { balance := 1000
             session := { pendingGenerate := 1, pendingRefine := 0
                          pendingPlanCostUsd := 1/1000, pendingPlanTokens := 1
                          pendingPlanReservedCredits := 1000
                          pendingEvaluateCostUsd := 0, pendingEvaluateTokens := 0
                          pendingEvaluateReservedCredits := 0 } }) := by
  unfold settleActionBilling roundCredits jsRound CREDIT_PRECISION_FACTOR
  norm_num

theorem c1excess_step3 :
    reserveCreditsForAction
      { balance := 1000
        session := { pendingGenerate := 1, pendingRefine := 0
                     pendingPlanCostUsd := 1/1000, pendingPlanTokens := 1
                     pendingPlanReservedCredits := 1000
                     pendingEvaluateCostUsd := 0, pendingEvaluateTokens := 0
                     pendingEvaluateReservedCredits := 0 } } .generate (some 0) =
      .ok ({ provisionalChargedCredits := 0, remainingBalance := 1000 },
           { balance := 1000
             session := { pendingGenerate := 0, pendingRefine := 0
                          pendingPlanCostUsd := 1/1000, pendingPlanTokens := 1
                          pendingPlanReservedCredits := 1000
                          pendingEvaluateCostUsd := 0, pendingEvaluateTokens := 0
                          pendingEvaluateReservedCredits := 0 } }) := by
  unfold reserveCreditsForAction readRequiredPendingPairState
    roundCreditsNonNegativeNum roundCreditsNum roundCreditsNonNegative roundCredits
    ceilCredits jsRound CREDIT_PRECISION_FACTOR EPSILON
  simp only [show (BillingAction.generate = BillingAction.generate) = True by simp,
    show (BillingAction.generate = BillingAction.refine) = False by simp,
    show (BillingAction.generate = BillingAction.plan) = False by simp,
    show (BillingAction.generate = BillingAction.evaluate) = False by simp,
    if_true, if_false, ite_true, ite_false, true_or, or_false, pendingPairFieldsForAction,
    SessionState.costOf, SessionState.tokensOf, SessionState.reservedOf, Except.map,
    ceil_via_floor, max_def]
  norm_num

theorem c1excess_billing :
    computeGifBilling expModelOne (1/1000 + 1/1000) =
      .ok { rawCredits := 7/1000, billedCredits := 857/1000, displayCredits := 1 } := by
  simp only [computeGifBilling, applySmoothCreditCurve, expModelOne, toDisplayCredits,
    roundCredits, ceilCredits, jsRound, CREDIT_PRECISION_FACTOR, CREDIT_NET_PRICE_USD,
    CREDIT_GROSS_PRICE_USD, PLAY_STORE_FEE_RATE, TAX_RATE, MIN_BILLED_CREDITS,
    BILLING_SAFETY_MARGIN_RATE, BASELINE_CREDITS, BASELINE_CREDITS_DECAY,
    ceil_via_floor, max_def]
  norm_num

theorem c1excess_step4 :
    settleActionBilling expModelOne
      { balance := 1000
        session := { pendingGenerate := 0, pendingRefine := 0
                     pendingPlanCostUsd := 1/1000, pendingPlanTokens := 1
                     pendingPlanReservedCredits := 1000
                     pendingEvaluateCostUsd := 0, pendingEvaluateTokens := 0
                     pendingEvaluateReservedCredits := 0 } } .generate
      { totalTokens := 1, totalUsd := 1/1000 } none =
      .ok ({ remainingBalance := 1000, additionalChargedCredits := 0
             pairCreditsCharged := some (857/1000)
             pairRawCredits := some (7/1000)
             pairDisplayCredits := some 1 },
           { balance := 1000
             session := { pendingGenerate := 0, pendingRefine := 0
                          pendingPlanCostUsd := 0, pendingPlanTokens := 0
                          pendingPlanReservedCredits := 0
                          pendingEvaluateCostUsd := 0, pendingEvaluateTokens := 0
                          pendingEvaluateReservedCredits := 0 } }) := by
  simp only [settleActionBilling, settleGifOrEvaluate, readRequiredPendingPairState,
    computeGifBilling, applySmoothCreditCurve, expModelOne, toDisplayCredits,
    roundCreditsNonNegative, roundCredits, ceilCredits, jsRound,
    CREDIT_PRECISION_FACTOR, EPSILON, CREDIT_NET_PRICE_USD, CREDIT_GROSS_PRICE_USD,
    PLAY_STORE_FEE_RATE, TAX_RATE, MIN_BILLED_CREDITS, BILLING_SAFETY_MARGIN_RATE,
    BASELINE_CREDITS, BASELINE_CREDITS_DECAY,
    pendingPairFieldsForAction, SessionState.costOf, SessionState.tokensOf,
    SessionState.reservedOf, SessionState.setCost, SessionState.setTokens,
    SessionState.setReserved, ceil_via_floor, max_def]
  norm_num

/-- C1 counterexample: balance 2000, `plan` over-reserves 1000 credits, the
true pair cost is 0.002 USD (billed 0.857 credits); after `generate`
settles, the balance is 1000 — the over-reservation is kept — while the
claimed conservation law would require 2000 − 0.857 = 1999.143. -/
theorem conservation_counterexample :
    reserveCreditsForAction { balance := 2000, session := .init } .plan (some 1000) =
      .ok ({ provisionalChargedCredits := 1000, remainingBalance := 1000 },
           { balance := 1000
             session := { pendingGenerate := 1, pendingRefine := 0
                          pendingPlanCostUsd := 0, pendingPlanTokens := 0
                          pendingPlanReservedCredits := 1000
                          pendingEvaluateCostUsd := 0, pendingEvaluateTokens := 0
                          pendingEvaluateReservedCredits := 0 } }) ∧
    settleActionBilling expModelOne
      { balance := 1000
        session := { pendingGenerate := 1, pendingRefine := 0
                     pendingPlanCostUsd := 0, pendingPlanTokens := 0
                     pendingPlanReservedCredits := 1000
                     pendingEvaluateCostUsd := 0, pendingEvaluateTokens := 0
                     pendingEvaluateReservedCredits := 0 } } .plan
      { totalTokens := 1, totalUsd := 1/1000 } none =
      .ok ({ remainingBalance := 1000, additionalChargedCredits := 0
             pairCreditsCharged := none, pairRawCredits := none
             pairDisplayCredits := none },
           { balance := 1000
             session := { pendingGenerate := 1, pendingRefine := 0
                          pendingPlanCostUsd := 1/1000, pendingPlanTokens := 1
                          pendingPlanReservedCredits := 1000
                          pendingEvaluateCostUsd := 0, pendingEvaluateTokens := 0
                          pendingEvaluateReservedCredits := 0 } }) ∧
    reserveCreditsForAction
      { balance := 1000
        session := { pendingGenerate := 1, pendingRefine := 0
                     pendingPlanCostUsd := 1/1000, pendingPlanTokens := 1
                     pendingPlanReservedCredits := 1000
                     pendingEvaluateCostUsd := 0, pendingEvaluateTokens := 0
                     pendingEvaluateReservedCredits := 0 } } .generate (some 0) =
      .ok ({ provisionalChargedCredits := 0, remainingBalance := 1000 },
           { balance := 1000
             session := { pendingGenerate := 0, pendingRefine := 0
                          pendingPlanCostUsd := 1/1000, pendingPlanTokens := 1
                          pendingPlanReservedCredits := 1000
                          pendingEvaluateCostUsd := 0, pendingEvaluateTokens := 0
                          pendingEvaluateReservedCredits := 0 } }) ∧
    settleActionBilling expModelOne
      { balance := 1000
        session := { pendingGenerate := 0, pendingRefine := 0
                     pendingPlanCostUsd := 1/1000, pendingPlanTokens := 1
                     pendingPlanReservedCredits := 1000
                     pendingEvaluateCostUsd := 0, pendingEvaluateTokens := 0
                     pendingEvaluateReservedCredits := 0 } } .generate
      { totalTokens := 1, totalUsd := 1/1000 } none =
      .ok ({ remainingBalance := 1000, additionalChargedCredits := 0
             pairCreditsCharged := some (857/1000)
             pairRawCredits := some (7/1000)
             pairDisplayCredits := some 1 },
           { balance := 1000
             session := { pendingGenerate := 0, pendingRefine := 0
                          pendingPlanCostUsd := 0, pendingPlanTokens := 0
                          pendingPlanReservedCredits := 0
                          pendingEvaluateCostUsd := 0, pendingEvaluateTokens := 0
                          pendingEvaluateReservedCredits := 0 } }) ∧
    computeGifBilling expModelOne (1/1000 + 1/1000) =
      .ok { rawCredits := 7/1000, billedCredits := 857/1000, displayCredits := 1 } ∧
    (1000 : ℚ) ≠ 2000 - 857/1000 :=
  ⟨c1excess_step1, c1excess_step2, c1excess_step3, c1excess_step4, c1excess_billing,
   by norm_num⟩

theorem c1w_step1 :
    reserveCreditsForAction { balance := 10, session := .init } .plan (some 1) =
      .ok ({ provisionalChargedCredits := 1, remainingBalance := 9 },
           { balance := 9
             session := { pendingGenerate := 1, pendingRefine := 0
                          pendingPlanCostUsd := 0, pendingPlanTokens := 0
                          pendingPlanReservedCredits := 1
                          pendingEvaluateCostUsd := 0, pendingEvaluateTokens := 0
                          pendingEvaluateReservedCredits := 0 } }) := by
  unfold reserveCreditsForAction readRequiredPendingPairState
    roundCreditsNonNegativeNum roundCreditsNum roundCreditsNonNegative roundCredits
    jsRound CREDIT_PRECISION_FACTOR EPSILON SessionState.init
  simp only [show (BillingAction.plan = BillingAction.generate) = False by simp,
    show (BillingAction.plan = BillingAction.refine) = False by simp,
    show (BillingAction.plan = BillingAction.evaluate) = False by simp,
    show (BillingAction.plan = BillingAction.plan) = True by simp,
    if_true, if_false, ite_true, ite_false, or_self]
  norm_num

theorem c1w_step2 :
    settleActionBilling expModelOne
      { balance := 9
        session := { pendingGenerate := 1, pendingRefine := 0
                     pendingPlanCostUsd := 0, pendingPlanTokens := 0
                     pendingPlanReservedCredits := 1
                     pendingEvaluateCostUsd := 0, pendingEvaluateTokens := 0
                     pendingEvaluateReservedCredits := 0 } } .plan
      { totalTokens := 1, totalUsd := 1 } none =
      .ok ({ remainingBalance := 9, additionalChargedCredits := 0
             pairCreditsCharged := none, pairRawCredits := none
             pairDisplayCredits := none },
           { balance := 9
             session := { pendingGenerate := 1, pendingRefine := 0
                          pendingPlanCostUsd := 1, pendingPlanTokens := 1
                          pendingPlanReservedCredits := 1
                          pendingEvaluateCostUsd := 0, pendingEvaluateTokens := 0
                          pendingEvaluateReservedCredits := 0 } }) := by
  unfold settleActionBilling roundCredits jsRound CREDIT_PRECISION_FACTOR
  norm_num

theorem c1w_step3 :
    reserveCreditsForAction
      { balance := 9
        session := { pendingGenerate := 1, pendingRefine := 0
                     pendingPlanCostUsd := 1, pendingPlanTokens := 1
                     pendingPlanReservedCredits := 1
                     pendingEvaluateCostUsd := 0, pendingEvaluateTokens := 0
                     pendingEvaluateReservedCredits := 0 } } .generate (some 0) =
      .ok ({ provisionalChargedCredits := 0, remainingBalance := 9 },
           { balance := 9
             session := { pendingGenerate := 0, pendingRefine := 0
                          pendingPlanCostUsd := 1, pendingPlanTokens := 1
                          pendingPlanReservedCredits := 1
                          pendingEvaluateCostUsd := 0, pendingEvaluateTokens := 0
                          pendingEvaluateReservedCredits := 0 } }) := by
  unfold reserveCreditsForAction readRequiredPendingPairState
    roundCreditsNonNegativeNum roundCreditsNum roundCreditsNonNegative roundCredits
    ceilCredits jsRound CREDIT_PRECISION_FACTOR EPSILON
  simp only [show (BillingAction.generate = BillingAction.generate) = True by simp,
    show (BillingAction.generate = BillingAction.refine) = False by simp,
    show (BillingAction.generate = BillingAction.plan) = False by simp,
    show (BillingAction.generate = BillingAction.evaluate) = False by simp,
    if_true, if_false, ite_true, ite_false, true_or, or_false, pendingPairFieldsForAction,
    SessionState.costOf, SessionState.tokensOf, SessionState.reservedOf, Except.map,
    ceil_via_floor, max_def]
  norm_num

theorem c1w_step4 :
    settleActionBilling expModelOne
      { balance := 9
        session := { pendingGenerate := 0, pendingRefine := 0
                     pendingPlanCostUsd := 1, pendingPlanTokens := 1
                     pendingPlanReservedCredits := 1
                     pendingEvaluateCostUsd := 0, pendingEvaluateTokens := 0
                     pendingEvaluateReservedCredits := 0 } } .generate
      { totalTokens := 1, totalUsd := 1 } none =
      .ok ({ remainingBalance := 2225/1000, additionalChargedCredits := 6775/1000
             pairCreditsCharged := some (7775/1000)
             pairRawCredits := some (6723/1000)
             pairDisplayCredits := some 8 },
           { balance := 2225/1000
             session := { pendingGenerate := 0, pendingRefine := 0
                          pendingPlanCostUsd := 0, pendingPlanTokens := 0
                          pendingPlanReservedCredits := 0
                          pendingEvaluateCostUsd := 0, pendingEvaluateTokens := 0
                          pendingEvaluateReservedCredits := 0 } }) := by
  simp only [settleActionBilling, settleGifOrEvaluate, readRequiredPendingPairState,
    computeGifBilling, applySmoothCreditCurve, expModelOne, toDisplayCredits,
    roundCreditsNonNegative, roundCredits, ceilCredits, jsRound,
    CREDIT_PRECISION_FACTOR, EPSILON, CREDIT_NET_PRICE_USD, CREDIT_GROSS_PRICE_USD,
    PLAY_STORE_FEE_RATE, TAX_RATE, MIN_BILLED_CREDITS, BILLING_SAFETY_MARGIN_RATE,
    BASELINE_CREDITS, BASELINE_CREDITS_DECAY,
    pendingPairFieldsForAction, SessionState.costOf, SessionState.tokensOf,
    SessionState.reservedOf, SessionState.setCost, SessionState.setTokens,
    SessionState.setReserved, ceil_via_floor, max_def]
  norm_num

/-- C1 amended witness: balance 10, `plan` reserves 1 credit, usage stashes
1 USD, `generate` tops up 0 and settles a 2 USD pair (billed 7.775
credits): the final balance is 10 − 7.775 = 2.225, and since the total
reservation (1) is below the billed credits the conservation form holds. -/
theorem plan_generate_pair_balance_witness :
    ∃ pb, computeGifBilling expModelOne
        (({ totalTokens := 1, totalUsd := 1 } : UsageMetrics).totalUsd +
          ({ totalTokens := 1, totalUsd := 1 } : UsageMetrics).totalUsd) = .ok pb ∧
      (2225/1000 : ℚ) = 10 - max pb.billedCredits (1 + 0) ∧
      ((1 : ℚ) + 0 ≤ pb.billedCredits → (2225/1000 : ℚ) = 10 - pb.billedCredits) :=
  plan_generate_pair_balance expModelOne 10 (some 1) (some 0)
    { totalTokens := 1, totalUsd := 1 } { totalTokens := 1, totalUsd := 1 }
    { provisionalChargedCredits := 1, remainingBalance := 9 }
    { balance := 9
      session := { pendingGenerate := 1, pendingRefine := 0
                   pendingPlanCostUsd := 0, pendingPlanTokens := 0
                   pendingPlanReservedCredits := 1
                   pendingEvaluateCostUsd := 0, pendingEvaluateTokens := 0
                   pendingEvaluateReservedCredits := 0 } }
    { remainingBalance := 9, additionalChargedCredits := 0
      pairCreditsCharged := none, pairRawCredits := none, pairDisplayCredits := none }
    { balance := 9
      session := { pendingGenerate := 1, pendingRefine := 0
                   pendingPlanCostUsd := 1, pendingPlanTokens := 1
                   pendingPlanReservedCredits := 1
                   pendingEvaluateCostUsd := 0, pendingEvaluateTokens := 0
                   pendingEvaluateReservedCredits := 0 } }
    { provisionalChargedCredits := 0, remainingBalance := 9 }
    { balance := 9
      session := { pendingGenerate := 0, pendingRefine := 0
                   pendingPlanCostUsd := 1, pendingPlanTokens := 1
                   pendingPlanReservedCredits := 1
                   pendingEvaluateCostUsd := 0, pendingEvaluateTokens := 0
                   pendingEvaluateReservedCredits := 0 } }
    { remainingBalance := 2225/1000, additionalChargedCredits := 6775/1000
      pairCreditsCharged := some (7775/1000)
      pairRawCredits := some (6723/1000)
      pairDisplayCredits := some 8 }
    { balance := 2225/1000
      session := { pendingGenerate := 0, pendingRefine := 0
                   pendingPlanCostUsd := 0, pendingPlanTokens := 0
                   pendingPlanReservedCredits := 0
                   pendingEvaluateCostUsd := 0, pendingEvaluateTokens := 0
                   pendingEvaluateReservedCredits := 0 } }
    (by unfold IsMilli; norm_num)
    c1w_step1 c1w_step2 c1w_step3 c1w_step4

/-- Inductive invariant for concurrent `verifyAndCreditPurchase`
invocations on one token: either no record exists yet and every invocation
is still at `start`, or the record exists, belongs to the user, was touched
within the scheduling window, and (processing phase) exactly one invocation
is past the create-lock — with the balance credited exactly when that
invocation has passed the credit transaction — while every other invocation
has either not started or aborted; or (completed phase) the balance holds
exactly one grant, the record stores it as `balanceAfter`, and every other
invocation has not started, aborted, or returned the idempotent
`alreadyCredited` response with that same balance. -/
def PInv (uid : ℕ) (g b0 : ℚ) (t0 : ℕ) (sys : PurchaseSystem) : Prop :=
  (sys.world.record = none ∧ sys.world.balance = b0 ∧
    ∀ i, sys.threads i = .start)
  ∨ (∃ rec, sys.world.record = some rec ∧ rec.uid = uid ∧
      t0 ≤ rec.updatedAt ∧ rec.updatedAt ≤ t0 + STALE_PROCESSING_MS ∧
      ((rec.status = .processing ∧
        ∃ c, (((sys.threads c = .verifyStep ∨ sys.threads c = .creditStep) ∧
                sys.world.balance = b0) ∨
              (sys.threads c = .completeStep (b0 + g) ∧
                sys.world.balance = b0 + g)) ∧
          ∀ j, j ≠ c →
            sys.threads j = .start ∨ sys.threads j = .doneErr .abortedProcessing)
       ∨ (rec.status = .completed ∧ sys.world.balance = b0 + g ∧
          rec.balanceAfter = some (b0 + g) ∧
          ∃ c, (sys.threads c = .consumeStep (b0 + g) ∨
                sys.threads c = .doneOk false (b0 + g)) ∧
            ∀ j, j ≠ c →
              sys.threads j = .start ∨
              sys.threads j = .doneErr .abortedProcessing ∨
              sys.threads j = .doneOk true (b0 + g))))

theorem round_round_add {b g : ℚ} (hb : IsMilli b) (hg : IsMilli g) :
    roundCredits (roundCredits b + g) = b + g := by
  rw [roundCredits_eq_self hb]
  exact roundCredits_eq_self (isMilli_add hb hg)


theorem purchaseStep_preserves (uid : ℕ) (pid : String) (g b0 : ℚ) (t0 : ℕ)
    (hb : IsMilli b0) (hg : IsMilli g)
    (sys : PurchaseSystem) (idx now : ℕ)
    (hn1 : t0 ≤ now) (hn2 : now ≤ t0 + STALE_PROCESSING_MS)
    (hinv : PInv uid g b0 t0 sys) :
    PInv uid g b0 t0 (purchaseRunStep uid pid g sys idx now) := by
  rcases hinv with ⟨hrec, hbal, hall⟩ | ⟨rec, hrec, huid, hu1, hu2, hphase⟩
  · -- no record yet: the step is the create-lock of invocation `idx`
    have hstep : purchaseStep uid pid g now sys.world (sys.threads idx) =
        ({ record := some
            { uid := uid, productId := pid, status := .processing
              creditsGranted := 0, balanceAfter := none, consumePending := false
              createdAt := now, updatedAt := now }
           balance := sys.world.balance }, .verifyStep) := by
      rw [hall idx]
      unfold purchaseStep
      rw [hrec]
    unfold purchaseRunStep
    rw [hstep]
    dsimp only [PurchaseSystem.world, PurchaseSystem.threads, PurchaseWorld.record, PurchaseWorld.balance]
    right
    refine ⟨_, rfl, rfl, hn1, hn2, Or.inl ⟨rfl, idx, ?_, ?_⟩⟩
    · exact Or.inl ⟨Or.inl (Function.update_same _ _ _), hbal⟩
    · intro j hj
      dsimp only
      rw [Function.update_noteq hj]
      exact Or.inl (hall j)
  · rcases hphase with ⟨hst, c, hc, hothers⟩ | ⟨hst, hbal, hafter, c, hc, hothers⟩
    · -- processing phase
      by_cases hidx : idx = c
      · subst hidx
        rcases hc with ⟨hpc | hpc, hbal⟩ | ⟨hpc, hbal⟩
        · -- creditor at verifyStep
          have hstep : purchaseStep uid pid g now sys.world (sys.threads idx) =
              (sys.world, .creditStep) := by
            rw [hpc]
            unfold purchaseStep
            rfl
          unfold purchaseRunStep
          rw [hstep]
          dsimp only [PurchaseSystem.world, PurchaseSystem.threads, PurchaseWorld.record, PurchaseWorld.balance]
          right
          refine ⟨rec, hrec, huid, hu1, hu2, Or.inl ⟨hst, idx, ?_, ?_⟩⟩
          · exact Or.inl ⟨Or.inr (Function.update_same _ _ _), hbal⟩
          · intro j hj
            dsimp only
            rw [Function.update_noteq hj]
            exact hothers j hj
        · -- creditor at creditStep: the credit transaction
          have hstep : purchaseStep uid pid g now sys.world (sys.threads idx) =
              ({ record := sys.world.record, balance := b0 + g },
               .completeStep (b0 + g)) := by
            rw [hpc]
            unfold purchaseStep
            dsimp only
            rw [hbal, round_round_add hb hg]
          unfold purchaseRunStep
          rw [hstep]
          dsimp only [PurchaseSystem.world, PurchaseSystem.threads, PurchaseWorld.record, PurchaseWorld.balance]
          right
          refine ⟨rec, hrec, huid, hu1, hu2, Or.inl ⟨hst, idx, ?_, ?_⟩⟩
          · exact Or.inr ⟨Function.update_same _ _ _, rfl⟩
          · intro j hj
            dsimp only
            rw [Function.update_noteq hj]
            exact hothers j hj
        · -- creditor at completeStep: persist completion
          have hstep : purchaseStep uid pid g now sys.world (sys.threads idx) =
              ({ record := some
                  { rec with productId := pid, status := .completed
                             creditsGranted := g, balanceAfter := some (b0 + g)
                             consumePending := true, updatedAt := now }
                 balance := sys.world.balance }, .consumeStep (b0 + g)) := by
            rw [hpc]
            unfold purchaseStep
            rw [hrec]
          unfold purchaseRunStep
          rw [hstep]
          dsimp only [PurchaseSystem.world, PurchaseSystem.threads, PurchaseWorld.record, PurchaseWorld.balance]
          right
          refine ⟨_, rfl, huid, hn1, hn2,
            Or.inr ⟨rfl, hbal, rfl, idx, Or.inl (Function.update_same _ _ _), ?_⟩⟩
          intro j hj
          dsimp only
          rw [Function.update_noteq hj]
          rcases hothers j hj with h | h
          · exact Or.inl h
          · exact Or.inr (Or.inl h)
      · -- a passive invocation steps while processing
        have hnotstale : ¬ (0 < rec.updatedAt ∧
            STALE_PROCESSING_MS < now - rec.updatedAt) := by
          rintro ⟨-, hlt⟩
          omega
        rcases hothers idx hidx with hpc | hpc
        · -- at start: aborts on the live processing record
          have hstep : purchaseStep uid pid g now sys.world (sys.threads idx) =
              (sys.world, .doneErr .abortedProcessing) := by
            rw [hpc]
            unfold purchaseStep
            rw [hrec]
            dsimp only
            rw [if_neg (by simp [huid]), hst]
            dsimp only
            rw [if_neg hnotstale]
          unfold purchaseRunStep
          rw [hstep]
          dsimp only [PurchaseSystem.world, PurchaseSystem.threads, PurchaseWorld.record, PurchaseWorld.balance]
          right
          refine ⟨rec, hrec, huid, hu1, hu2, Or.inl ⟨hst, c, ?_, ?_⟩⟩
          · dsimp only
            rw [Function.update_noteq (fun h => hidx h.symm)]
            exact hc
          · intro j hj
            by_cases hji : j = idx
            · subst hji
              dsimp only
              rw [Function.update_same]
              exact Or.inr rfl
            · dsimp only
              rw [Function.update_noteq hji]
              exact hothers j hj
        · -- already aborted: halted, no-op
          have hstep : purchaseStep uid pid g now sys.world (sys.threads idx) =
              (sys.world, .doneErr .abortedProcessing) := by
            rw [hpc]
            unfold purchaseStep
            rfl
          unfold purchaseRunStep
          rw [hstep]
          dsimp only [PurchaseSystem.world, PurchaseSystem.threads, PurchaseWorld.record, PurchaseWorld.balance]
          right
          refine ⟨rec, hrec, huid, hu1, hu2, Or.inl ⟨hst, c, ?_, ?_⟩⟩
          · dsimp only
            rw [Function.update_noteq (fun h => hidx h.symm)]
            exact hc
          · intro j hj
            by_cases hji : j = idx
            · subst hji
              dsimp only
              rw [Function.update_same]
              exact Or.inr rfl
            · dsimp only
              rw [Function.update_noteq hji]
              exact hothers j hj
    · -- completed phase
      by_cases hidx : idx = c
      · subst hidx
        rcases hc with hpc | hpc
        · -- creditor at consumeStep: consume and clear the pending flag
          have hstep : purchaseStep uid pid g now sys.world (sys.threads idx) =
              ({ record := some { rec with consumePending := false, updatedAt := now }
                 balance := sys.world.balance }, .doneOk false (b0 + g)) := by
            rw [hpc]
            unfold purchaseStep
            rw [hrec]
          unfold purchaseRunStep
          rw [hstep]
          dsimp only [PurchaseSystem.world, PurchaseSystem.threads, PurchaseWorld.record, PurchaseWorld.balance]
          right
          refine ⟨_, rfl, huid, hn1, hn2,
            Or.inr ⟨hst, hbal, hafter, idx, Or.inr (Function.update_same _ _ _), ?_⟩⟩
          intro j hj
          dsimp only
          rw [Function.update_noteq hj]
          exact hothers j hj
        · -- creditor already returned: halted, no-op
          have hstep : purchaseStep uid pid g now sys.world (sys.threads idx) =
              (sys.world, .doneOk false (b0 + g)) := by
            rw [hpc]
            unfold purchaseStep
            rfl
          unfold purchaseRunStep
          rw [hstep]
          dsimp only [PurchaseSystem.world, PurchaseSystem.threads, PurchaseWorld.record, PurchaseWorld.balance]
          right
          refine ⟨rec, hrec, huid, hu1, hu2,
            Or.inr ⟨hst, hbal, hafter, idx, Or.inr (Function.update_same _ _ _), ?_⟩⟩
          intro j hj
          dsimp only
          rw [Function.update_noteq hj]
          exact hothers j hj
      · -- a passive invocation steps while completed
        rcases hothers idx hidx with hpc | hpc | hpc
        · -- at start: idempotent completed path
          cases hcp : rec.consumePending with
          | true =>
            have hstep : purchaseStep uid pid g now sys.world (sys.threads idx) =
                ({ record := some { rec with consumePending := false, updatedAt := now }
                   balance := sys.world.balance }, .doneOk true (b0 + g)) := by
              rw [hpc]
              unfold purchaseStep
              rw [hrec]
              dsimp only
              rw [if_neg (by simp [huid]), hst]
              dsimp only
              rw [hafter, hcp]
              rfl
            unfold purchaseRunStep
            rw [hstep]
            dsimp only [PurchaseSystem.world, PurchaseSystem.threads, PurchaseWorld.record, PurchaseWorld.balance]
            right
            refine ⟨_, rfl, huid, hn1, hn2,
              Or.inr ⟨hst, hbal, hafter, c, ?_, ?_⟩⟩
            · dsimp only
              rw [Function.update_noteq (fun h => hidx h.symm)]
              exact hc
            · intro j hj
              by_cases hji : j = idx
              · subst hji
                dsimp only
                rw [Function.update_same]
                exact Or.inr (Or.inr rfl)
              · dsimp only
                rw [Function.update_noteq hji]
                exact hothers j hj
          | false =>
            have hstep : purchaseStep uid pid g now sys.world (sys.threads idx) =
                (sys.world, .doneOk true (b0 + g)) := by
              rw [hpc]
              unfold purchaseStep
              rw [hrec]
              dsimp only
              rw [if_neg (by simp [huid]), hst]
              dsimp only
              rw [hafter, hcp]
              rfl
            unfold purchaseRunStep
            rw [hstep]
            dsimp only [PurchaseSystem.world, PurchaseSystem.threads, PurchaseWorld.record, PurchaseWorld.balance]
            right
            refine ⟨rec, hrec, huid, hu1, hu2,
              Or.inr ⟨hst, hbal, hafter, c, ?_, ?_⟩⟩
            · dsimp only
              rw [Function.update_noteq (fun h => hidx h.symm)]
              exact hc
            · intro j hj
              by_cases hji : j = idx
              · subst hji
                dsimp only
                rw [Function.update_same]
                exact Or.inr (Or.inr rfl)
              · dsimp only
                rw [Function.update_noteq hji]
                exact hothers j hj
        · -- aborted earlier: halted, no-op
          have hstep : purchaseStep uid pid g now sys.world (sys.threads idx) =
              (sys.world, .doneErr .abortedProcessing) := by
            rw [hpc]
            unfold purchaseStep
            rfl
          unfold purchaseRunStep
          rw [hstep]
          dsimp only [PurchaseSystem.world, PurchaseSystem.threads, PurchaseWorld.record, PurchaseWorld.balance]
          right
          refine ⟨rec, hrec, huid, hu1, hu2,
            Or.inr ⟨hst, hbal, hafter, c, ?_, ?_⟩⟩
          · dsimp only
            rw [Function.update_noteq (fun h => hidx h.symm)]
            exact hc
          · intro j hj
            by_cases hji : j = idx
            · subst hji
              dsimp only
              rw [Function.update_same]
              exact Or.inr (Or.inl rfl)
            · dsimp only
              rw [Function.update_noteq hji]
              exact hothers j hj
        · -- already got the idempotent response: halted, no-op
          have hstep : purchaseStep uid pid g now sys.world (sys.threads idx) =
              (sys.world, .doneOk true (b0 + g)) := by
            rw [hpc]
            unfold purchaseStep
            rfl
          unfold purchaseRunStep
          rw [hstep]
          dsimp only [PurchaseSystem.world, PurchaseSystem.threads, PurchaseWorld.record, PurchaseWorld.balance]
          right
          refine ⟨rec, hrec, huid, hu1, hu2,
            Or.inr ⟨hst, hbal, hafter, c, ?_, ?_⟩⟩
          · dsimp only
            rw [Function.update_noteq (fun h => hidx h.symm)]
            exact hc
          · intro j hj
            by_cases hji : j = idx
            · subst hji
              dsimp only
              rw [Function.update_same]
              exact Or.inr (Or.inr rfl)
            · dsimp only
              rw [Function.update_noteq hji]
              exact hothers j hj

theorem purchaseRunSchedule_preserves (uid : ℕ) (pid : String) (g b0 : ℚ) (t0 : ℕ)
    (hb : IsMilli b0) (hg : IsMilli g) :
    ∀ (sched : List (ℕ × ℕ)) (sys : PurchaseSystem),
      (∀ p ∈ sched, t0 ≤ p.2 ∧ p.2 ≤ t0 + STALE_PROCESSING_MS) →
      PInv uid g b0 t0 sys →
      PInv uid g b0 t0 (purchaseRunSchedule uid pid g sys sched) := by
  intro sched
  induction sched with
  | nil => intro sys _ hinv; exact hinv
  | cons p rest ih =>
    intro sys hs hinv
    unfold purchaseRunSchedule
    exact ih _ (fun q hq => hs q (List.mem_cons_of_mem p hq))
      (purchaseStep_preserves uid pid g b0 t0 hb hg sys p.1 p.2
        (hs p (List.mem_cons_self p rest)).1 (hs p (List.mem_cons_self p rest)).2 hinv)

theorem GIF_PACKS_values {pid : String} {g : ℚ} (h : GIF_PACKS pid = some g) :
    g = 2 ∨ g = 10 ∨ g = 40 ∨ g = 200 := by
  unfold GIF_PACKS at h
  split at h <;> simp_all

/-- C2: fire `verifyAndCreditPurchase` any number of times, under any
interleaving of the store round trips (a schedule of thread/time picks,
with the whole burst inside the 5-minute stale-takeover window): the
balance is credited by the product's grant at most once (exactly once as
soon as some invocation returns `alreadyCredited = false`), every
invocation that returns successfully — the creditor and every invocation
that found the record completed — reports the same final balance
`b0 + grant`, and at most one invocation is the creditor. -/
theorem verifyAndCreditPurchase_exactly_once (uid : ℕ) (pid : String) (g b0 : ℚ)
    (t0 : ℕ) (sched : List (ℕ × ℕ))
    (hgp : GIF_PACKS pid = some g) (hb : IsMilli b0)
    (ht : ∀ p ∈ sched, t0 ≤ p.2 ∧ p.2 ≤ t0 + STALE_PROCESSING_MS) :
    ((purchaseRunSchedule uid pid g (purchaseInit b0) sched).world.balance = b0 ∨
      (purchaseRunSchedule uid pid g (purchaseInit b0) sched).world.balance = b0 + g) ∧
    (∀ i a bal,
      (purchaseRunSchedule uid pid g (purchaseInit b0) sched).threads i =
        .doneOk a bal → bal = b0 + g) ∧
    (∀ i j bi bj,
      (purchaseRunSchedule uid pid g (purchaseInit b0) sched).threads i =
          .doneOk false bi →
      (purchaseRunSchedule uid pid g (purchaseInit b0) sched).threads j =
          .doneOk false bj → i = j) ∧
    ((∃ i bal, (purchaseRunSchedule uid pid g (purchaseInit b0) sched).threads i =
        .doneOk false bal) →
      (purchaseRunSchedule uid pid g (purchaseInit b0) sched).world.balance = b0 + g) := by
  have hg : IsMilli g := by
    rcases GIF_PACKS_values hgp with rfl | rfl | rfl | rfl <;>
      (unfold IsMilli; norm_num)
  have hinit : PInv uid g b0 t0 (purchaseInit b0) := by
    left
    exact ⟨rfl, rfl, fun _ => rfl⟩
  have hinv := purchaseRunSchedule_preserves uid pid g b0 t0 hb hg sched
    (purchaseInit b0) ht hinit
  set sys := purchaseRunSchedule uid pid g (purchaseInit b0) sched with hsys
  rcases hinv with ⟨hrec, hbal, hall⟩ | ⟨rec, hrec, huid, hu1, hu2, hphase⟩
  · refine ⟨Or.inl hbal, ?_, ?_, ?_⟩
    · intro i a bal hpc
      rw [hall i] at hpc
      exact absurd hpc (by simp)
    · intro i j bi bj hi hj
      rw [hall i] at hi
      exact absurd hi (by simp)
    · rintro ⟨i, bal, hpc⟩
      rw [hall i] at hpc
      exact absurd hpc (by simp)
  · rcases hphase with ⟨hst, c, hc, hothers⟩ | ⟨hst, hbal, hafter, c, hc, hothers⟩
    · have hnodone : ∀ i a bal, sys.threads i ≠ PurchasePC.doneOk a bal := by
        intro i a bal hpc
        by_cases hic : i = c
        · subst hic
          rcases hc with ⟨hv | hv, -⟩ | ⟨hv, -⟩ <;> rw [hv] at hpc <;> simp at hpc
        · rcases hothers i hic with hv | hv <;> rw [hv] at hpc <;> simp at hpc
      refine ⟨?_, ?_, ?_, ?_⟩
      · rcases hc with ⟨-, hbal⟩ | ⟨-, hbal⟩
        · exact Or.inl hbal
        · exact Or.inr hbal
      · intro i a bal hpc
        exact absurd hpc (hnodone i a bal)
      · intro i j bi bj hi hj
        exact absurd hi (hnodone i false bi)
      · rintro ⟨i, bal, hpc⟩
        exact absurd hpc (hnodone i false bal)
    · have honly : ∀ i bal, sys.threads i = PurchasePC.doneOk false bal → i = c := by
        intro i bal hpc
        by_contra hic
        rcases hothers i hic with hv | hv | hv <;> rw [hv] at hpc <;> simp at hpc
      refine ⟨Or.inr hbal, ?_, ?_, fun _ => hbal⟩
      · intro i a bal hpc
        by_cases hic : i = c
        · subst hic
          rcases hc with hv | hv
          · rw [hv] at hpc
            exact absurd hpc (by simp)
          · rw [hv] at hpc
            simp only [PurchasePC.doneOk.injEq] at hpc
            exact hpc.2.symm
        · rcases hothers i hic with hv | hv | hv
          · rw [hv] at hpc
            exact absurd hpc (by simp)
          · rw [hv] at hpc
            exact absurd hpc (by simp)
          · rw [hv] at hpc
            simp only [PurchasePC.doneOk.injEq] at hpc
            exact hpc.2.symm
      · intro i j bi bj hi hj
        rw [honly i bi hi, honly j bj hj]

/-- C2 witness: two concurrent invocations for pack tier 1 (grant 2) on
balance 0 — one runs to completion, the other takes the idempotent
completed path; all conclusions of the exactly-once theorem hold. -/
theorem verifyAndCreditPurchase_exactly_once_witness :
    ((purchaseRunSchedule 7 "token_pack_tier1" 2 (purchaseInit 0)
        [(0, 0), (0, 0), (0, 0), (0, 0), (0, 0), (1, 0)]).world.balance = 0 ∨
      (purchaseRunSchedule 7 "token_pack_tier1" 2 (purchaseInit 0)
        [(0, 0), (0, 0), (0, 0), (0, 0), (0, 0), (1, 0)]).world.balance = 0 + 2) ∧
    (∀ i a bal,
      (purchaseRunSchedule 7 "token_pack_tier1" 2 (purchaseInit 0)
        [(0, 0), (0, 0), (0, 0), (0, 0), (0, 0), (1, 0)]).threads i =
          .doneOk a bal → bal = 0 + 2) ∧
    (∀ i j bi bj,
      (purchaseRunSchedule 7 "token_pack_tier1" 2 (purchaseInit 0)
        [(0, 0), (0, 0), (0, 0), (0, 0), (0, 0), (1, 0)]).threads i =
          .doneOk false bi →
      (purchaseRunSchedule 7 "token_pack_tier1" 2 (purchaseInit 0)
        [(0, 0), (0, 0), (0, 0), (0, 0), (0, 0), (1, 0)]).threads j =
          .doneOk false bj → i = j) ∧
    ((∃ i bal,
      (purchaseRunSchedule 7 "token_pack_tier1" 2 (purchaseInit 0)
        [(0, 0), (0, 0), (0, 0), (0, 0), (0, 0), (1, 0)]).threads i =
          .doneOk false bal) →
      (purchaseRunSchedule 7 "token_pack_tier1" 2 (purchaseInit 0)
        [(0, 0), (0, 0), (0, 0), (0, 0), (0, 0), (1, 0)]).world.balance = 0 + 2) :=
  verifyAndCreditPurchase_exactly_once 7 "token_pack_tier1" 2 0 0
    [(0, 0), (0, 0), (0, 0), (0, 0), (0, 0), (1, 0)]
    rfl (by unfold IsMilli; norm_num) (by decide)
